import Mathlib

/-!
The addition dispatcher of `gmpy2_add.c`.

A shallow embedding of `src/gmpy2_add.c`.  Host values are a closed variant
type, the multi-precision payloads of integers and rationals are `Int` and
`Rat`, and the rounded primitives of the real and complex libraries are
parameters of the environment.  Every entry point returns its return value
together with the context it worked on and the sequence of resource and
primitive events it performed, in source order.
-/

namespace Gmpy2

/-! ## Machine words -/

/-- Least value of the signed machine word `mpir_si` of `W` bits. -/
def SI_MIN (W : Nat) : Int := -(2 : Int) ^ (W - 1)

/-- Greatest value of the signed machine word `mpir_si` of `W` bits. -/
def SI_MAX (W : Nat) : Int := (2 : Int) ^ (W - 1) - 1

/-- C conversion of a signed value to the unsigned word of `W` bits taken by
`mpz_add_ui` and `mpz_sub_ui`: reduction modulo `2^W`. -/
def to_ui (W : Nat) (v : Int) : Nat := (v % (2 : Int) ^ W).toNat

/-- Two-complement wrap of a mathematical integer into the signed word. -/
def to_si (W : Nat) (v : Int) : Int :=
  (v + (2 : Int) ^ (W - 1)) % (2 : Int) ^ W - (2 : Int) ^ (W - 1)

/-- The C expression `-temp_si` on the signed word. -/
def neg_si (W : Nat) (s : Int) : Int := to_si W (-s)

/-! ## Payloads and host values -/

/-- Rounding modes. -/
inductive Rnd
  | RNDN | RNDZ | RNDU | RNDD | RNDA
deriving DecidableEq, Repr

/-- Payload of an owned real: precision, exponent, signed significand. -/
structure mpfr_t where
  prec : Nat
  exp : Int
  mant : Int
deriving DecidableEq, Repr

/-- Payload of an owned complex. -/
structure mpc_t where
  re : mpfr_t
  im : mpfr_t
deriving DecidableEq, Repr

/-- Payload of a host double (its bit pattern). -/
structure double where
  bits : Nat
deriving DecidableEq, Repr

/-- Host values reaching the dispatcher, one constructor per operand shape of
the data model: host integer, other integer-convertible, owned integer, other
rational-convertible, owned rational, host decimal, host double, owned real,
owned complex, and any other host value. -/
inductive PyObject
  | pylong (v : Int)
  | intlike (v : Int)
  | mpz (z : Int)
  | fraction (q : Rat)
  | mpq (q : Rat)
  | decimal (q : Rat)
  | pyfloat (d : double)
  | mpfr (f : mpfr_t) (rc : Int)
  | mpc (c : mpc_t) (rc : Int)
  | str (s : String)
deriving DecidableEq, Repr

/-- Condition flags of the real library and of a context. -/
structure Flags where
  inexact : Bool
  overflow : Bool
  underflow : Bool
  invalid : Bool
  divzero : Bool
  nan : Bool
deriving DecidableEq, Repr

/-- The empty flag set. -/
def Flags.none : Flags := ⟨false, false, false, false, false, false⟩

/-- Union of two flag sets. -/
def Flags.union (a b : Flags) : Flags :=
  ⟨a.inexact || b.inexact, a.overflow || b.overflow, a.underflow || b.underflow,
   a.invalid || b.invalid, a.divzero || b.divzero, a.nan || b.nan⟩

/-- Whether two flag sets intersect. -/
def Flags.meets (a b : Flags) : Bool :=
  (a.inexact && b.inexact) || (a.overflow && b.overflow) || (a.underflow && b.underflow) ||
  (a.invalid && b.invalid) || (a.divzero && b.divzero) || (a.nan && b.nan)

/-- The context record `CTXT_Object`. -/
structure CTXT_Object where
  mpfr_prec : Nat
  mpfr_round : Rnd
  real_prec : Nat
  imag_prec : Nat
  real_round : Rnd
  imag_round : Rnd
  emax : Int
  emin : Int
  traps : Flags
  flags : Flags
  readonly : Bool
deriving DecidableEq, Repr

/-- Failures surfaced to the caller (a `NULL` return with an exception set). -/
inductive Err
  | TypeMismatch
  | ArityError
  | AllocationFailure
  | HostConversionFailure
  | TrappedConditions (set : Flags)
deriving DecidableEq, Repr

/-- What a C entry point hands back: an object, the `Py_NotImplemented`
sentinel, or `NULL` with an exception. -/
inductive PyResult
  | value (o : PyObject)
  | NotImplemented
  | error (e : Err)
deriving DecidableEq, Repr

/-! ## Resources, primitives and events -/

/-- The multi-precision resources a dispatcher call can hold: the result
wrapper, the coerced operand temporaries `tempx` and `tempy`, and the
stack-scoped big integer `tempz`. -/
inductive Res
  | result | tempx | tempy | tempz
deriving DecidableEq, Repr

/-- A call of an underlying add primitive with its operand arguments. -/
inductive Prim
  | mpz_add (a b : Int)
  | mpz_add_ui (a : Int) (w : Nat)
  | mpz_sub_ui (a : Int) (w : Nat)
  | mpq_add (a b : Rat)
  | mpfr_add (a b : mpfr_t) (r : Rnd)
  | mpfr_add_z (a : mpfr_t) (z : Int) (r : Rnd)
  | mpfr_add_si (a : mpfr_t) (s : Int) (r : Rnd)
  | mpfr_add_q (a : mpfr_t) (q : Rat) (r : Rnd)
  | mpfr_add_d (a : mpfr_t) (d : double) (r : Rnd)
  | mpc_add (a b : mpc_t) (rr ri : Rnd)
deriving DecidableEq, Repr

/-- One observable step of a dispatcher call. -/
inductive Event
  | acquire (r : Res)
  | release (r : Res)
  | set_exponent (emin emax : Int)
  | clear_flags
  | call (p : Prim)
  | cleanup
  | ctx_copy
  | ctx_incref
  | ctx_decref
deriving DecidableEq, Repr

/-- Result of running an entry point: the returned value, the state after the
call of the context object the entry worked with, and the events performed. -/
structure Run where
  ret : PyResult
  ctx : Option CTXT_Object
  trace : List Event
deriving DecidableEq, Repr

/-- The destination of a rounded primitive: the precisions of the result
payload and the exponent range installed in the library by `SET_EXPONENT`. -/
structure Dest where
  prec : Nat
  iprec : Nat
  emin : Int
  emax : Int
deriving DecidableEq, Repr

/-- What a rounded primitive produces: the payload, the ternary status code
and the library flags it raised. -/
structure Rounded (α : Type) where
  val : α
  rc : Int
  flags : Flags

/-- The environment of one dispatcher call: the width `W` of the machine word
`mpir_si`, the active context, whether each fallible acquisition of the call
succeeds (`result_ok` for the result wrapper of `GMPy_MP*_New`, `tempx_ok` and
`tempy_ok` for the coercions assigned to `tempx` and `tempy`, `copy_ok` for
`GMPy_CTXT_Copy`), and the external real and complex libraries (rounded
primitives, coercions into temporaries, and the range reduction used by the
result finalizer).  A failed result allocation is surfaced as
`AllocationFailure`, a failed coercion as `HostConversionFailure`. -/
structure Env where
  W : Nat
  W_pos : 0 < W
  active : CTXT_Object
  result_ok : Bool
  tempx_ok : Bool
  tempy_ok : Bool
  copy_ok : Bool
  mpfr_add : Dest → mpfr_t → mpfr_t → Rnd → Rounded mpfr_t
  mpfr_add_z : Dest → mpfr_t → Int → Rnd → Rounded mpfr_t
  mpfr_add_si : Dest → mpfr_t → Int → Rnd → Rounded mpfr_t
  mpfr_add_q : Dest → mpfr_t → Rat → Rnd → Rounded mpfr_t
  mpfr_add_d : Dest → mpfr_t → double → Rnd → Rounded mpfr_t
  mpc_add : Dest → mpc_t → mpc_t → Rnd → Rnd → Rounded mpc_t
  real_temp : Dest → Rnd → PyObject → mpfr_t
  complex_temp : Dest → Rnd → Rnd → PyObject → mpc_t
  mpfr_subnormalize : Dest → Rnd → Rounded mpfr_t → Rounded mpfr_t
  mpc_subnormalize : Dest → Rnd → Rnd → Rounded mpc_t → Rounded mpc_t

/-! ## Type probes of `gmpy2_convert.h` -/

/-- Modelled from the spec: the probe `PyIntOrLong_Check` of the host runtime,
true of host integers (shapes HostSmallSigned and HostBigInteger). -/
def PyIntOrLong_Check : PyObject → Bool
  | .pylong _ => true
  | _ => false

/-- Modelled from the spec: the macro `CHECK_MPZANY`, true of owned integers. -/
def CHECK_MPZANY : PyObject → Bool
  | .mpz _ => true
  | _ => false

/-- Modelled from the spec: the macro `MPQ_Check`, true of owned rationals. -/
def MPQ_Check : PyObject → Bool
  | .mpq _ => true
  | _ => false

/-- Modelled from the spec: the macro `MPFR_Check`, true of owned reals. -/
def MPFR_Check : PyObject → Bool
  | .mpfr _ _ => true
  | _ => false

/-- Modelled from the spec: the macro `MPC_Check`, true of owned complexes. -/
def MPC_Check : PyObject → Bool
  | .mpc _ _ => true
  | _ => false

/-- Modelled from the spec: the probe `PyFloat_Check`, true of host doubles. -/
def PyFloat_Check : PyObject → Bool
  | .pyfloat _ => true
  | _ => false

/-- Modelled from the spec: the macro `IS_DECIMAL`, true of host decimals. -/
def IS_DECIMAL : PyObject → Bool
  | .decimal _ => true
  | _ => false

/-- Modelled from the spec: the macro `IS_INTEGER`, the admissible domain of
the Integer kind (owned, host integer, other integer-convertible). -/
def IS_INTEGER : PyObject → Bool
  | .mpz _ => true
  | .pylong _ => true
  | .intlike _ => true
  | _ => false

/-- Modelled from the spec: the macro `IS_RATIONAL`, the admissible domain of
the Rational kind: every Integer, owned rationals and other
rational-convertibles.  Host decimals are tested separately by the source
(`IS_RATIONAL(y) || IS_DECIMAL(y)`) and are admitted from the Real kind on. -/
def IS_RATIONAL (x : PyObject) : Bool :=
  IS_INTEGER x ||
  match x with
  | .mpq _ => true
  | .fraction _ => true
  | _ => false

/-- Modelled from the spec: the macro `IS_REAL`, the admissible domain of the
Real kind: every Rational, owned reals, host doubles and host decimals. -/
def IS_REAL (x : PyObject) : Bool :=
  IS_RATIONAL x || MPFR_Check x || PyFloat_Check x || IS_DECIMAL x

/-- Modelled from the spec: the macro `IS_COMPLEX`, the admissible domain of
the Complex kind: every Real and owned complexes. -/
def IS_COMPLEX (x : PyObject) : Bool :=
  IS_REAL x || MPC_Check x

/-- Modelled from the spec: the macro `MPFR_CheckAndExp`, an owned real whose
exponent currently lies in the bounds of the context. -/
def MPFR_CheckAndExp (context : CTXT_Object) : PyObject → Bool
  | .mpfr f _ => decide (context.emin ≤ f.exp) && decide (f.exp ≤ context.emax)
  | _ => false

/-- Modelled from the spec: the macro `MPC_CheckAndExp`, an owned complex
whose two exponents currently lie in the bounds of the context. -/
def MPC_CheckAndExp (context : CTXT_Object) : PyObject → Bool
  | .mpc c _ =>
    decide (context.emin ≤ c.re.exp) && decide (c.re.exp ≤ context.emax) &&
    decide (context.emin ≤ c.im.exp) && decide (c.im.exp ≤ context.emax)
  | _ => false

/-! ## Payload accessors and exact primitives -/

/-- The macro `MPZ(x)`: the payload of an owned integer. -/
def MPZ : PyObject → Int
  | .mpz z => z
  | _ => 0

/-- The macro `MPQ(x)`: the payload of an owned rational. -/
def MPQ : PyObject → Rat
  | .mpq q => q
  | _ => 0

/-- The macro `MPFR(x)`: the payload of an owned real. -/
def MPFR : PyObject → mpfr_t
  | .mpfr f _ => f
  | _ => ⟨0, 0, 0⟩

/-- The macro `MPC(x)`: the payload of an owned complex. -/
def MPC : PyObject → mpc_t
  | .mpc c _ => c
  | _ => ⟨⟨0, 0, 0⟩, ⟨0, 0, 0⟩⟩

/-- The macro `PyFloat_AS_DOUBLE(x)`. -/
def PyFloat_AS_DOUBLE : PyObject → double
  | .pyfloat d => d
  | _ => ⟨0⟩

/-- Modelled from the spec: the host-integer decode `PyLong_AsSIAndOverflow`.
It returns the value and overflow 0 when the host integer fits the signed
word, and reports an overflow (of the sign of the value) otherwise. -/
def PyLong_AsSIAndOverflow (W : Nat) : PyObject → Int × Int
  | .pylong v =>
    if v < SI_MIN W then (-1, -1)
    else if SI_MAX W < v then (-1, 1)
    else (v, 0)
  | _ => (-1, 0)

/-- Modelled from the spec: the big-integer import `mpz_set_PyIntOrLong`. -/
def mpz_set_PyIntOrLong : PyObject → Int
  | .pylong v => v
  | _ => 0

/-- The big-integer primitive `mpz_add`: exact sum. -/
def mpz_add (a b : Int) : Int := a + b

/-- The big-integer primitive `mpz_add_ui`: adds an unsigned word. -/
def mpz_add_ui (a : Int) (w : Nat) : Int := a + (w : Int)

/-- The big-integer primitive `mpz_sub_ui`: subtracts an unsigned word. -/
def mpz_sub_ui (a : Int) (w : Nat) : Int := a - (w : Int)

/-- The rational primitive `mpq_add`: exact sum. -/
def mpq_add (a b : Rat) : Rat := a + b

/-- Modelled from the spec: the coercion `GMPy_MPZ_From_Integer_Temp` of an
Integer operand into an owned integer temporary; `NULL` when it fails. -/
def GMPy_MPZ_From_Integer_Temp (ok : Bool) : PyObject → Option Int
  | .mpz z => if ok then some z else none
  | .pylong v => if ok then some v else none
  | .intlike v => if ok then some v else none
  | _ => none

/-- Modelled from the spec: the coercion `GMPy_MPQ_From_Number_Temp` of a
Rational or decimal operand into an owned rational temporary; `NULL` when it
fails. -/
def GMPy_MPQ_From_Number_Temp (ok : Bool) : PyObject → Option Rat
  | .mpz z => if ok then some (z : Rat) else none
  | .pylong v => if ok then some (v : Rat) else none
  | .intlike v => if ok then some (v : Rat) else none
  | .mpq q => if ok then some q else none
  | .fraction q => if ok then some q else none
  | .decimal q => if ok then some q else none
  | _ => none

/-! ## `GMPy_Integer_Add` -/

/-- Lines 69-91: the arms taken when `x` is an owned integer. -/
def Integer_Add_x_owned (E : Env) (x y : PyObject) (context : Option CTXT_Object) :
    Option Run :=
  if CHECK_MPZANY x then
    if PyIntOrLong_Check y then
      let temp_si := (PyLong_AsSIAndOverflow E.W y).1
      let overflow := (PyLong_AsSIAndOverflow E.W y).2
      if overflow ≠ 0 then
        let tempz := mpz_set_PyIntOrLong y
        some ⟨.value (.mpz (mpz_add (MPZ x) tempz)), context,
          [.acquire .result, .acquire .tempz, .call (.mpz_add (MPZ x) tempz),
           .release .tempz]⟩
      else if temp_si ≥ 0 then
        some ⟨.value (.mpz (mpz_add_ui (MPZ x) (to_ui E.W temp_si))), context,
          [.acquire .result, .call (.mpz_add_ui (MPZ x) (to_ui E.W temp_si))]⟩
      else
        some ⟨.value (.mpz (mpz_sub_ui (MPZ x) (to_ui E.W (neg_si E.W temp_si)))), context,
          [.acquire .result, .call (.mpz_sub_ui (MPZ x) (to_ui E.W (neg_si E.W temp_si)))]⟩
    else if CHECK_MPZANY y then
      some ⟨.value (.mpz (mpz_add (MPZ x) (MPZ y))), context,
        [.acquire .result, .call (.mpz_add (MPZ x) (MPZ y))]⟩
    else none
  else none

/-- Lines 93-110: the arms taken when `y` is an owned integer and `x` a host
integer. -/
def Integer_Add_y_owned (E : Env) (x y : PyObject) (context : Option CTXT_Object) :
    Option Run :=
  if CHECK_MPZANY y then
    if PyIntOrLong_Check x then
      let temp_si := (PyLong_AsSIAndOverflow E.W x).1
      let overflow := (PyLong_AsSIAndOverflow E.W x).2
      if overflow ≠ 0 then
        let tempz := mpz_set_PyIntOrLong x
        some ⟨.value (.mpz (mpz_add (MPZ y) tempz)), context,
          [.acquire .result, .acquire .tempz, .call (.mpz_add (MPZ y) tempz),
           .release .tempz]⟩
      else if temp_si > 0 then
        some ⟨.value (.mpz (mpz_add_ui (MPZ y) (to_ui E.W temp_si))), context,
          [.acquire .result, .call (.mpz_add_ui (MPZ y) (to_ui E.W temp_si))]⟩
      else
        some ⟨.value (.mpz (mpz_sub_ui (MPZ y) (to_ui E.W (neg_si E.W temp_si)))), context,
          [.acquire .result, .call (.mpz_sub_ui (MPZ y) (to_ui E.W (neg_si E.W temp_si)))]⟩
    else none
  else none

/-- Lines 112-128: the generic arm, both operands coerced into temporaries. -/
def Integer_Add_generic (E : Env) (x y : PyObject) (context : Option CTXT_Object) :
    Option Run :=
  if IS_INTEGER x && IS_INTEGER y then
    match GMPy_MPZ_From_Integer_Temp E.tempx_ok x, GMPy_MPZ_From_Integer_Temp E.tempy_ok y with
    | some tempx, some tempy =>
      some ⟨.value (.mpz (mpz_add tempx tempy)), context,
        [.acquire .result, .acquire .tempx, .acquire .tempy, .call (.mpz_add tempx tempy),
         .release .tempx, .release .tempy]⟩
    | some _, none =>
      some ⟨.error .HostConversionFailure, context,
        [.acquire .result, .acquire .tempx, .release .tempx, .release .result]⟩
    | none, some _ =>
      some ⟨.error .HostConversionFailure, context,
        [.acquire .result, .acquire .tempy, .release .tempy, .release .result]⟩
    | none, none =>
      some ⟨.error .HostConversionFailure, context, [.acquire .result, .release .result]⟩
  else none

/-- The function `GMPy_Integer_Add` (lines 58-132). -/
def GMPy_Integer_Add (E : Env) (x y : PyObject) (context : Option CTXT_Object) : Run :=
  if !E.result_ok then ⟨.error .AllocationFailure, context, []⟩
  else
    match Integer_Add_x_owned E x y context with
    | some r => r
    | none =>
      match Integer_Add_y_owned E x y context with
      | some r => r
      | none =>
        match Integer_Add_generic E x y context with
        | some r => r
        | none => ⟨.NotImplemented, context, [.acquire .result, .release .result]⟩

/-! ## `GMPy_Rational_Add` -/

/-- The function `GMPy_Rational_Add` (lines 162-195). -/
def GMPy_Rational_Add (E : Env) (x y : PyObject) (context : Option CTXT_Object) : Run :=
  if !E.result_ok then ⟨.error .AllocationFailure, context, []⟩
  else if MPQ_Check x && MPQ_Check y then
    ⟨.value (.mpq (mpq_add (MPQ x) (MPQ y))), context,
      [.acquire .result, .call (.mpq_add (MPQ x) (MPQ y))]⟩
  else if IS_RATIONAL x && IS_RATIONAL y then
    match GMPy_MPQ_From_Number_Temp E.tempx_ok x, GMPy_MPQ_From_Number_Temp E.tempy_ok y with
    | some tempx, some tempy =>
      ⟨.value (.mpq (mpq_add tempx tempy)), context,
        [.acquire .result, .acquire .tempx, .acquire .tempy, .call (.mpq_add tempx tempy),
         .release .tempx, .release .tempy]⟩
    | some _, none =>
      ⟨.error .HostConversionFailure, context,
        [.acquire .result, .acquire .tempx, .release .tempx, .release .result]⟩
    | none, some _ =>
      ⟨.error .HostConversionFailure, context,
        [.acquire .result, .acquire .tempy, .release .tempy, .release .result]⟩
    | none, none =>
      ⟨.error .HostConversionFailure, context, [.acquire .result, .release .result]⟩
  else ⟨.NotImplemented, context, [.acquire .result, .release .result]⟩

/-! ## `GMPy_Real_Add` -/

/-- How the arms of the Real and Complex entries leave: by `goto done` with
the rounded result of the primitive, or by an early `return NULL`. -/
inductive Arm (α : Type)
  | done (r : Rounded α) (trace : List Event)
  | fail (e : Err) (trace : List Event)

/-- The macro `GET_MPFR_ROUND(context)`. -/
def GET_MPFR_ROUND (context : CTXT_Object) : Rnd := context.mpfr_round

/-- The destination of a Real primitive: `result->f` as allocated by
`GMPy_MPFR_New(0, context)` under the exponent range of the context. -/
def real_dest (context : CTXT_Object) : Dest :=
  ⟨context.mpfr_prec, 0, context.emin, context.emax⟩

/-- The destination of a Complex primitive: `result->c` as allocated by
`GMPy_MPC_New(0, 0, context)` under the exponent range of the context. -/
def complex_dest (context : CTXT_Object) : Dest :=
  ⟨context.real_prec, context.imag_prec, context.emin, context.emax⟩

/-- Modelled from the spec: the coercion `GMPy_MPFR_From_Real_Temp(x, 0, context)`
of a Real operand into an owned real temporary materialised under the current
context; `NULL` when it fails. -/
def GMPy_MPFR_From_Real_Temp (E : Env) (ok : Bool) (context : CTXT_Object) (x : PyObject) :
    Option mpfr_t :=
  if ok && IS_REAL x then some (E.real_temp (real_dest context) (GET_MPFR_ROUND context) x)
  else none

/-- Modelled from the spec: the coercion
`GMPy_MPC_From_Complex_Temp(x, 0, 0, context)` of a Complex operand into an
owned complex temporary; `NULL` when it fails. -/
def GMPy_MPC_From_Complex_Temp (E : Env) (ok : Bool) (context : CTXT_Object) (x : PyObject) :
    Option mpc_t :=
  if ok && IS_COMPLEX x then
    some (E.complex_temp (complex_dest context) context.real_round context.imag_round x)
  else none

/-- Lines 249-254: both operands owned reals with in-range exponents. -/
def Real_Add_both_owned (E : Env) (x y : PyObject) (context : CTXT_Object) :
    Option (Arm mpfr_t) :=
  if MPFR_CheckAndExp context x && MPFR_CheckAndExp context y then
    some (.done (E.mpfr_add (real_dest context) (MPFR x) (MPFR y) (GET_MPFR_ROUND context))
      [.clear_flags, .call (.mpfr_add (MPFR x) (MPFR y) (GET_MPFR_ROUND context))])
  else none

/-- Lines 256-307: the arms taken when `x` is an owned in-range real. -/
def Real_Add_x_owned (E : Env) (x y : PyObject) (context : CTXT_Object) :
    Option (Arm mpfr_t) :=
  if MPFR_CheckAndExp context x then
    if PyIntOrLong_Check y then
      let temp_si := (PyLong_AsSIAndOverflow E.W y).1
      let overflow := (PyLong_AsSIAndOverflow E.W y).2
      if overflow ≠ 0 then
        let tempz := mpz_set_PyIntOrLong y
        some (.done (E.mpfr_add_z (real_dest context) (MPFR x) tempz (GET_MPFR_ROUND context))
          [.acquire .tempz, .clear_flags,
           .call (.mpfr_add_z (MPFR x) tempz (GET_MPFR_ROUND context)), .release .tempz])
      else
        some (.done (E.mpfr_add_si (real_dest context) (MPFR x) temp_si (GET_MPFR_ROUND context))
          [.clear_flags, .call (.mpfr_add_si (MPFR x) temp_si (GET_MPFR_ROUND context))])
    else if CHECK_MPZANY y then
      some (.done (E.mpfr_add_z (real_dest context) (MPFR x) (MPZ y) (GET_MPFR_ROUND context))
        [.clear_flags, .call (.mpfr_add_z (MPFR x) (MPZ y) (GET_MPFR_ROUND context))])
    else if IS_RATIONAL y || IS_DECIMAL y then
      match GMPy_MPQ_From_Number_Temp E.tempy_ok y with
      | none => some (.fail .HostConversionFailure [.release .result])
      | some tempy =>
        some (.done (E.mpfr_add_q (real_dest context) (MPFR x) tempy (GET_MPFR_ROUND context))
          [.acquire .tempy, .clear_flags,
           .call (.mpfr_add_q (MPFR x) tempy (GET_MPFR_ROUND context)), .release .tempy])
    else if PyFloat_Check y then
      some (.done
        (E.mpfr_add_d (real_dest context) (MPFR x) (PyFloat_AS_DOUBLE y) (GET_MPFR_ROUND context))
        [.clear_flags,
         .call (.mpfr_add_d (MPFR x) (PyFloat_AS_DOUBLE y) (GET_MPFR_ROUND context))])
    else none
  else none

/-- Lines 309-360: the arms taken when `y` is an owned in-range real. -/
def Real_Add_y_owned (E : Env) (x y : PyObject) (context : CTXT_Object) :
    Option (Arm mpfr_t) :=
  if MPFR_CheckAndExp context y then
    if PyIntOrLong_Check x then
      let temp_si := (PyLong_AsSIAndOverflow E.W x).1
      let overflow := (PyLong_AsSIAndOverflow E.W x).2
      if overflow ≠ 0 then
        let tempz := mpz_set_PyIntOrLong x
        some (.done (E.mpfr_add_z (real_dest context) (MPFR y) tempz (GET_MPFR_ROUND context))
          [.acquire .tempz, .clear_flags,
           .call (.mpfr_add_z (MPFR y) tempz (GET_MPFR_ROUND context)), .release .tempz])
      else
        some (.done (E.mpfr_add_si (real_dest context) (MPFR y) temp_si (GET_MPFR_ROUND context))
          [.clear_flags, .call (.mpfr_add_si (MPFR y) temp_si (GET_MPFR_ROUND context))])
    else if CHECK_MPZANY x then
      some (.done (E.mpfr_add_z (real_dest context) (MPFR y) (MPZ x) (GET_MPFR_ROUND context))
        [.clear_flags, .call (.mpfr_add_z (MPFR y) (MPZ x) (GET_MPFR_ROUND context))])
    else if IS_RATIONAL x || IS_DECIMAL x then
      match GMPy_MPQ_From_Number_Temp E.tempx_ok x with
      | none => some (.fail .HostConversionFailure [.release .result])
      | some tempx =>
        some (.done (E.mpfr_add_q (real_dest context) (MPFR y) tempx (GET_MPFR_ROUND context))
          [.acquire .tempx, .clear_flags,
           .call (.mpfr_add_q (MPFR y) tempx (GET_MPFR_ROUND context)), .release .tempx])
    else if PyFloat_Check x then
      some (.done
        (E.mpfr_add_d (real_dest context) (MPFR y) (PyFloat_AS_DOUBLE x) (GET_MPFR_ROUND context))
        [.clear_flags,
         .call (.mpfr_add_d (MPFR y) (PyFloat_AS_DOUBLE x) (GET_MPFR_ROUND context))])
    else none
  else none

/-- Lines 362-383: the generic arm, both operands re-materialised as
temporaries under the current context. -/
def Real_Add_generic (E : Env) (x y : PyObject) (context : CTXT_Object) :
    Option (Arm mpfr_t) :=
  if IS_REAL x && IS_REAL y then
    match GMPy_MPFR_From_Real_Temp E E.tempx_ok context x,
          GMPy_MPFR_From_Real_Temp E E.tempy_ok context y with
    | some tempx, some tempy =>
      some (.done (E.mpfr_add (real_dest context) tempx tempy (GET_MPFR_ROUND context))
        [.acquire .tempx, .acquire .tempy, .clear_flags,
         .call (.mpfr_add tempx tempy (GET_MPFR_ROUND context)),
         .release .tempx, .release .tempy])
    | some _, none =>
      some (.fail .HostConversionFailure [.acquire .tempx, .release .tempx, .release .result])
    | none, some _ =>
      some (.fail .HostConversionFailure [.acquire .tempy, .release .tempy, .release .result])
    | none, none => some (.fail .HostConversionFailure [.release .result])
  else none

/-- Modelled from the spec: the result finalizer `MPFR_CLEANUP_2`.  It reduces
the result to the exponent range with the stored status and the rounding
mode, applies the flag set to the context, and fails with the trapped
conditions (releasing the result) when a produced flag is in the trap mask. -/
def MPFR_CLEANUP_2 (E : Env) (context : CTXT_Object) (r : Rounded mpfr_t)
    (trace : List Event) : Run :=
  let s := E.mpfr_subnormalize (real_dest context) (GET_MPFR_ROUND context) r
  let after : CTXT_Object := { context with flags := context.flags.union s.flags }
  if s.flags.meets context.traps then
    ⟨.error (.TrappedConditions s.flags), some after, trace ++ [.cleanup, .release .result]⟩
  else
    ⟨.value (.mpfr s.val s.rc), some after, trace ++ [.cleanup]⟩

/-- The function `GMPy_Real_Add` (lines 236-391). -/
def GMPy_Real_Add (E : Env) (x y : PyObject) (context : Option CTXT_Object) : Run :=
  let context := context.getD E.active
  if !E.result_ok then
    ⟨.error .AllocationFailure, some context, [.set_exponent context.emin context.emax]⟩
  else
    let entry : List Event := [.set_exponent context.emin context.emax, .acquire .result]
    let arm :=
      match Real_Add_both_owned E x y context with
      | some a => some a
      | none =>
        match Real_Add_x_owned E x y context with
        | some a => some a
        | none =>
          match Real_Add_y_owned E x y context with
          | some a => some a
          | none => Real_Add_generic E x y context
    match arm with
    | some (.done r t) => MPFR_CLEANUP_2 E context r (entry ++ t)
    | some (.fail e t) => ⟨.error e, some context, entry ++ t⟩
    | none => ⟨.NotImplemented, some context, entry ++ [.release .result]⟩

/-! ## `GMPy_Complex_Add` -/

/-- Lines 426-430: both operands owned complexes with in-range exponents. -/
def Complex_Add_both_owned (E : Env) (x y : PyObject) (context : CTXT_Object) :
    Option (Arm mpc_t) :=
  if MPC_CheckAndExp context x && MPC_CheckAndExp context y then
    some (.done
      (E.mpc_add (complex_dest context) (MPC x) (MPC y) context.real_round context.imag_round)
      [.call (.mpc_add (MPC x) (MPC y) context.real_round context.imag_round)])
  else none

/-- Lines 432-447: the generic arm. -/
def Complex_Add_generic (E : Env) (x y : PyObject) (context : CTXT_Object) :
    Option (Arm mpc_t) :=
  if IS_COMPLEX x && IS_COMPLEX y then
    match GMPy_MPC_From_Complex_Temp E E.tempx_ok context x,
          GMPy_MPC_From_Complex_Temp E E.tempy_ok context y with
    | some tempx, some tempy =>
      some (.done
        (E.mpc_add (complex_dest context) tempx tempy context.real_round context.imag_round)
        [.acquire .tempx, .acquire .tempy,
         .call (.mpc_add tempx tempy context.real_round context.imag_round),
         .release .tempx, .release .tempy])
    | some _, none =>
      some (.fail .HostConversionFailure [.acquire .tempx, .release .tempx, .release .result])
    | none, some _ =>
      some (.fail .HostConversionFailure [.acquire .tempy, .release .tempy, .release .result])
    | none, none => some (.fail .HostConversionFailure [.release .result])
  else none

/-- Modelled from the spec: the result finalizer `MPC_CLEANUP_2`, the Complex
counterpart of `MPFR_CLEANUP_2`. -/
def MPC_CLEANUP_2 (E : Env) (context : CTXT_Object) (r : Rounded mpc_t)
    (trace : List Event) : Run :=
  let s := E.mpc_subnormalize (complex_dest context) context.real_round context.imag_round r
  let after : CTXT_Object := { context with flags := context.flags.union s.flags }
  if s.flags.meets context.traps then
    ⟨.error (.TrappedConditions s.flags), some after, trace ++ [.cleanup, .release .result]⟩
  else
    ⟨.value (.mpc s.val s.rc), some after, trace ++ [.cleanup]⟩

/-- The function `GMPy_Complex_Add` (lines 417-455). -/
def GMPy_Complex_Add (E : Env) (x y : PyObject) (context : Option CTXT_Object) : Run :=
  let context := context.getD E.active
  if !E.result_ok then
    ⟨.error .AllocationFailure, some context, [.set_exponent context.emin context.emax]⟩
  else
    let entry : List Event := [.set_exponent context.emin context.emax, .acquire .result]
    let arm :=
      match Complex_Add_both_owned E x y context with
      | some a => some a
      | none => Complex_Add_generic E x y context
    match arm with
    | some (.done r t) => MPC_CLEANUP_2 E context r (entry ++ t)
    | some (.fail e t) => ⟨.error e, some context, entry ++ t⟩
    | none => ⟨.NotImplemented, some context, entry ++ [.release .result]⟩

/-! ## The operator entries, `GMPy_Number_Add` and `GMPy_Context_Add` -/

/-- The function `GMPy_mpz_add_fast` (lines 140-156). -/
def GMPy_mpz_add_fast (E : Env) (x y : PyObject) : Run :=
  if IS_INTEGER x && IS_INTEGER y then GMPy_Integer_Add E x y none
  else if IS_RATIONAL x && IS_RATIONAL y then GMPy_Rational_Add E x y none
  else if IS_REAL x && IS_REAL y then GMPy_Real_Add E x y none
  else if IS_COMPLEX x && IS_COMPLEX y then GMPy_Complex_Add E x y none
  else ⟨.NotImplemented, none, []⟩

/-- The function `GMPy_mpq_add_fast` (lines 202-217). -/
def GMPy_mpq_add_fast (E : Env) (x y : PyObject) : Run :=
  if IS_RATIONAL x && IS_RATIONAL y then GMPy_Rational_Add E x y none
  else if IS_REAL x && IS_REAL y then GMPy_Real_Add E x y none
  else if IS_COMPLEX x && IS_COMPLEX y then GMPy_Complex_Add E x y none
  else ⟨.NotImplemented, none, []⟩

/-- The function `GMPy_mpfr_add_fast` (lines 398-410). -/
def GMPy_mpfr_add_fast (E : Env) (x y : PyObject) : Run :=
  if IS_REAL x && IS_REAL y then GMPy_Real_Add E x y none
  else if IS_COMPLEX x && IS_COMPLEX y then GMPy_Complex_Add E x y none
  else ⟨.NotImplemented, none, []⟩

/-- The function `GMPy_mpc_add_fast` (lines 462-468). -/
def GMPy_mpc_add_fast (E : Env) (x y : PyObject) : Run :=
  GMPy_Complex_Add E x y none

/-- The function `GMPy_Number_Add` (lines 470-487). -/
def GMPy_Number_Add (E : Env) (x y : PyObject) (context : Option CTXT_Object) : Run :=
  if IS_INTEGER x && IS_INTEGER y then GMPy_Integer_Add E x y context
  else if IS_RATIONAL x && IS_RATIONAL y then GMPy_Rational_Add E x y context
  else if IS_REAL x && IS_REAL y then GMPy_Real_Add E x y context
  else if IS_COMPLEX x && IS_COMPLEX y then GMPy_Complex_Add E x y context
  else ⟨.error .TypeMismatch, context, []⟩

/-- Modelled from the spec: `GMPy_CTXT_Copy`, the owned mutable copy of a
context. -/
def GMPy_CTXT_Copy (c : CTXT_Object) : CTXT_Object := { c with readonly := false }

/-- Result of `GMPy_Context_Add`: the returned value, the state of `self`
after the call, the state after the call of the context the addition ran
against, and the events performed. -/
structure CtxRun where
  ret : PyResult
  self_after : Option CTXT_Object
  working : Option CTXT_Object
  trace : List Event
deriving DecidableEq, Repr

/-- The function `GMPy_Context_Add` (lines 499-535).  `self` is `none` when the
receiver is not a context object. -/
def GMPy_Context_Add (E : Env) (self : Option CTXT_Object) (args : List PyObject) : CtxRun :=
  match args with
  | [x, y] =>
    match self with
    | some c =>
      if c.readonly then
        if !E.copy_ok then ⟨.error .AllocationFailure, some c, none, []⟩
        else
          let context := GMPy_CTXT_Copy c
          let r := GMPy_Number_Add E x y (some context)
          ⟨r.ret, some c, r.ctx,
            [.ctx_copy, .set_exponent context.emin context.emax] ++ r.trace ++ [.ctx_decref]⟩
      else
        let r := GMPy_Number_Add E x y (some c)
        ⟨r.ret, r.ctx, r.ctx,
          [.ctx_incref, .set_exponent c.emin c.emax] ++ r.trace ++ [.ctx_decref]⟩
    | none =>
      let context := E.active
      let r := GMPy_Number_Add E x y (some context)
      ⟨r.ret, none, r.ctx,
        [.set_exponent context.emin context.emax, .ctx_incref] ++ r.trace ++ [.ctx_decref]⟩
  | _ => ⟨.error .ArityError, self, none, []⟩

/-! ## The classifier and the coercion table of the specification -/

/-- The numeric kinds of the ladder, and `Unknown`. -/
inductive Kind
  | Integer | Rational | Real | Complex | Unknown
deriving DecidableEq, Repr

/-- The operand shapes of the data model. -/
inductive Shape
  | Owned | HostSmallSigned | HostBigInteger | OtherIntegerConvertible
  | OtherRationalConvertible | HostDecimal | HostDouble | Unknown
deriving DecidableEq, Repr

/-- Modelled from the spec: the kind classifier `classify(value)` of section
4.1, giving the kind of the value and its operand shape as the data model of
section 3 lists them; a host decimal is the Rational shape `HostDecimal`. -/
def classify (W : Nat) : PyObject → Kind × Shape
  | .pylong v =>
    if (PyLong_AsSIAndOverflow W (.pylong v)).2 = 0 then (.Integer, .HostSmallSigned)
    else (.Integer, .HostBigInteger)
  | .pyfloat _ => (.Real, .HostDouble)
  | .decimal _ => (.Rational, .HostDecimal)
  | .mpz _ => (.Integer, .Owned)
  | .mpq _ => (.Rational, .Owned)
  | .mpfr _ _ => (.Real, .Owned)
  | .mpc _ _ => (.Complex, .Owned)
  | .intlike _ => (.Integer, .OtherIntegerConvertible)
  | .fraction _ => (.Rational, .OtherRationalConvertible)
  | .str _ => (.Unknown, .Unknown)

/-- Position of a kind on the ladder Integer < Rational < Real < Complex. -/
def Kind.rank : Kind → Nat
  | .Integer => 0
  | .Rational => 1
  | .Real => 2
  | .Complex => 3
  | .Unknown => 4

/-- Modelled from the spec: the coercion table `common_kind(k1, k2)` of section
4.3; `none` stands for Unsupported. -/
def common_kind : Kind → Kind → Option Kind
  | .Unknown, _ => none
  | _, .Unknown => none
  | .Integer, .Integer => some .Integer
  | .Complex, _ => some .Complex
  | _, .Complex => some .Complex
  | .Real, _ => some .Real
  | _, .Real => some .Real
  | _, _ => some .Rational

/-- The kind of an owned value returned by the dispatcher. -/
def kind_of_value : PyObject → Kind
  | .mpz _ => .Integer
  | .mpq _ => .Rational
  | .mpfr _ _ => .Real
  | .mpc _ _ => .Complex
  | _ => .Unknown

/-- The rung at which the ladder of `GMPy_Number_Add` first admits an operand:
the narrowest kind whose admissibility probe accepts it. -/
def rung (x : PyObject) : Kind :=
  if IS_INTEGER x then .Integer
  else if IS_RATIONAL x then .Rational
  else if IS_REAL x then .Real
  else if IS_COMPLEX x then .Complex
  else .Unknown

/-! ## Outcome shapes and a concrete environment -/

/-- The outcomes of the Real entry that are not `NotImplemented` or an
allocation failure. -/
def RealOutcome (E : Env) (traps : Flags) (r : PyResult) : Prop :=
  (∃ f rc, r = .value (.mpfr f rc)) ∨
  (r = .error .HostConversionFailure ∧ (E.tempx_ok = false ∨ E.tempy_ok = false)) ∨
  (∃ s, r = .error (.TrappedConditions s) ∧ s.meets traps = true)

/-- The outcomes of the Rational entry that are not `NotImplemented` or an
allocation failure. -/
def RationalOutcome (E : Env) (r : PyResult) : Prop :=
  (∃ q, r = .value (.mpq q)) ∨
  (r = .error .HostConversionFailure ∧ (E.tempx_ok = false ∨ E.tempy_ok = false))

/-- The outcomes of the Complex entry that are not `NotImplemented` or an
allocation failure. -/
def ComplexOutcome (E : Env) (traps : Flags) (r : PyResult) : Prop :=
  (∃ c rc, r = .value (.mpc c rc)) ∨
  (r = .error .HostConversionFailure ∧ (E.tempx_ok = false ∨ E.tempy_ok = false)) ∨
  (∃ s, r = .error (.TrappedConditions s) ∧ s.meets traps = true)

/-- The operator form hands the fall-through sentinel back where the function
form raises `TypeMismatch`. -/
def degrade : PyResult → PyResult
  | .error .TypeMismatch => .NotImplemented
  | r => r

/-- A default context: 53 bits, round to nearest, no trap, no flag. -/
def sample_ctx : CTXT_Object :=
  ⟨53, .RNDN, 53, 53, .RNDN, .RNDN, 1073741823, -1073741823, Flags.none, Flags.none, false⟩

/-- A stand-in for a rounded real primitive: it raises no flag. -/
def sample_real (d : Dest) (a : mpfr_t) : Rounded mpfr_t := ⟨⟨d.prec, a.exp, a.mant⟩, 0, Flags.none⟩

/-- A stand-in for a rounded complex primitive: it raises no flag. -/
def sample_complex (a : mpc_t) : Rounded mpc_t := ⟨a, 0, Flags.none⟩

/-- A concrete environment on which the entries can be evaluated: 64-bit
words, every acquisition succeeding, and stand-in libraries. -/
def sample_env : Env :=
  Env.mk 64 (by decide) sample_ctx true true true true
    (fun d a _ _ => sample_real d a) (fun d a _ _ => sample_real d a)
    (fun d a _ _ => sample_real d a) (fun d a _ _ => sample_real d a)
    (fun d a _ _ => sample_real d a) (fun _ a _ _ _ => sample_complex a)
    (fun d _ x => ⟨d.prec, (MPFR x).exp, (MPFR x).mant⟩)
    (fun _ _ _ x => MPC x)
    (fun _ _ r => r) (fun _ _ _ r => r)

/-- The sample environment with an allocator that cannot serve the result
wrapper. -/
def exhausted_env : Env :=
  Env.mk 64 (by decide) sample_ctx false true true true
    (fun d a _ _ => sample_real d a) (fun d a _ _ => sample_real d a)
    (fun d a _ _ => sample_real d a) (fun d a _ _ => sample_real d a)
    (fun d a _ _ => sample_real d a) (fun _ a _ _ _ => sample_complex a)
    (fun d _ x => ⟨d.prec, (MPFR x).exp, (MPFR x).mant⟩)
    (fun _ _ _ x => MPC x)
    (fun _ _ r => r) (fun _ _ _ r => r)

/-- A read-only default context. -/
def sample_readonly_ctx : CTXT_Object := { sample_ctx with readonly := true }

/-- The mathematical value of an Integer operand. -/
def int_value : PyObject → Int
  | .pylong v => v
  | .intlike v => v
  | .mpz z => z
  | _ => 0

/-- The mathematical value of a Rational operand. -/
def rat_value : PyObject → Rat
  | .pylong v => (v : Rat)
  | .intlike v => (v : Rat)
  | .mpz z => (z : Rat)
  | .fraction q => q
  | .mpq q => q
  | _ => 0

/-- Whether `GMPy_Integer_Add` takes one of the specialized arms of lines
69-110 on the pair: an owned integer with a host integer in either order, or
two owned integers. -/
def Integer_fast_path (x y : PyObject) : Bool :=
  (CHECK_MPZANY x && (PyIntOrLong_Check y || CHECK_MPZANY y)) ||
  (CHECK_MPZANY y && PyIntOrLong_Check x)

/-! ## Reading a trace -/

/-- Whether a result is an object handed back to the caller. -/
def PyResult.isValue : PyResult → Bool
  | .value _ => true
  | _ => false

/-- The resources a call holds after a sequence of events, from the ones it
holds before; `none` when a resource is acquired while held or released while
not held. -/
def held_after : List Res → List Event → Option (List Res)
  | held, [] => some held
  | held, .acquire r :: t => if r ∈ held then none else held_after (r :: held) t
  | held, .release r :: t => if r ∈ held then held_after (held.erase r) t else none
  | held, _ :: t => held_after held t

/-- The count of live multi-precision allocations after a call that found `n`
of them live on entry. -/
def live_count (n : Nat) (trace : List Event) : Option Nat :=
  (held_after [] trace).map (fun held => n + held.length)

/-- The primitive calls of a trace, in order. -/
def calls : List Event → List Prim
  | [] => []
  | .call p :: t => p :: calls t
  | _ :: t => calls t

/-- Flag bracketing of a trace: every primitive call comes right after a
`clear_flags`, nothing in between. -/
def bracketed : List Event → Bool
  | [] => true
  | .clear_flags :: .call _ :: t => bracketed t
  | .call _ :: _ => false
  | _ :: t => bracketed t

/-- A run is tidy when it ends holding the result wrapper alone if it returns
an object, and nothing otherwise. -/
def Tidy (r : Run) : Prop :=
  held_after [] r.trace = some (if r.ret.isValue then [.result] else [])

/-- An arm of the Real or Complex entry is tidy when, entered holding the
result wrapper, it reaches `done` holding the result wrapper alone, or returns
early holding nothing. -/
def ArmTidy {α : Type} : Arm α → Prop
  | .done _ t => held_after [.result] t = some [.result]
  | .fail _ t => held_after [.result] t = some []

/-- An arm of the Real entry keeps the flag bracket when its events, placed
between the entry events and the finalizer, form a bracketed trace; an arm
that reaches `done` holds exactly one primitive call, an arm that returns
early holds none. -/
def ArmBracketed {α : Type} : Arm α → Prop
  | .done _ t =>
    (∀ emin emax,
      bracketed ([.set_exponent emin emax, .acquire .result] ++ t ++ [.cleanup]) = true ∧
      bracketed ([.set_exponent emin emax, .acquire .result] ++ t ++
        [.cleanup, .release .result]) = true) ∧
    (calls t).length = 1
  | .fail _ t =>
    (∀ emin emax, bracketed ([.set_exponent emin emax, .acquire .result] ++ t) = true) ∧
    calls t = []

/-- An arm of the Complex entry never clears the library flags; an arm that
reaches `done` holds exactly one primitive call, an arm that returns early
holds none. -/
def ArmUncleared {α : Type} : Arm α → Prop
  | .done _ t => Event.clear_flags ∉ t ∧ (calls t).length = 1
  | .fail _ t => Event.clear_flags ∉ t ∧ calls t = []

/-- A run keeps the flag bracket when every primitive call of its trace comes
right after a `clear_flags`, and a returned object comes from exactly one
primitive call. -/
def Bracketed (r : Run) : Prop :=
  bracketed r.trace = true ∧ (r.ret.isValue = true → (calls r.trace).length = 1)

/-- A run is uncleared when its trace holds no `clear_flags`, while a returned
object still comes from exactly one primitive call. -/
def Uncleared (r : Run) : Prop :=
  Event.clear_flags ∉ r.trace ∧ (r.ret.isValue = true → (calls r.trace).length = 1)

/-- The sample context with the exponent bound `emax = 0` of scenario 8. -/
def emax_zero_ctx : CTXT_Object := { sample_ctx with emax := 0 }

/-- A stand-in for a rounded real primitive that rounds: it raises `inexact`. -/
def inexact_real (d : Dest) (a : mpfr_t) : Rounded mpfr_t :=
  ⟨⟨d.prec, a.exp, a.mant⟩, 1, ⟨true, false, false, false, false, false⟩⟩

/-- The sample environment with real primitives that raise `inexact`. -/
def inexact_env : Env :=
  Env.mk 64 (by decide) sample_ctx true true true true
    (fun d a _ _ => inexact_real d a) (fun d a _ _ => inexact_real d a)
    (fun d a _ _ => inexact_real d a) (fun d a _ _ => inexact_real d a)
    (fun d a _ _ => inexact_real d a) (fun _ a _ _ _ => sample_complex a)
    (fun d _ x => ⟨d.prec, (MPFR x).exp, (MPFR x).mant⟩)
    (fun _ _ _ x => MPC x)
    (fun _ _ r => r) (fun _ _ _ r => r)

/-! ## Word arithmetic -/

theorem two_pow_split (W : Nat) (hW : 0 < W) : (2 : Int) ^ W = 2 * (2 : Int) ^ (W - 1) := by
  obtain ⟨k, rfl⟩ : ∃ k, W = k + 1 := ⟨W - 1, by omega⟩
  simp [pow_succ]; ring

/-- A non-negative value of the signed word converts to itself. -/
theorem to_ui_nonneg (W : Nat) (hW : 0 < W) (v : Int) (h0 : 0 ≤ v) (h1 : v ≤ SI_MAX W) :
    ((to_ui W v : Nat) : Int) = v := by
  have hp : (0 : Int) < (2 : Int) ^ (W - 1) := by positivity
  have h2 := two_pow_split W hW
  unfold SI_MAX at h1
  unfold to_ui
  rw [Int.emod_eq_of_lt h0 (by omega)]
  exact Int.toNat_of_nonneg h0

/-- The negated non-positive value of the signed word converts to its
magnitude, the least word included. -/
theorem to_ui_neg_si (W : Nat) (hW : 0 < W) (v : Int) (h0 : v ≤ 0) (h1 : SI_MIN W ≤ v) :
    ((to_ui W (neg_si W v) : Nat) : Int) = -v := by
  have hp : (0 : Int) < (2 : Int) ^ (W - 1) := by positivity
  have h2 := two_pow_split W hW
  unfold SI_MIN at h1
  unfold to_ui neg_si to_si
  generalize (2 : Int) ^ (W - 1) = P at *
  rw [h2]
  by_cases hv : -v = P
  · rw [hv, show P + P = 2 * P by ring, Int.emod_self]
    have : (0 - P) % (2 * P) = P := by
      rw [← Int.add_emod_self, show 0 - P + 2 * P = P by ring]
      exact Int.emod_eq_of_lt (by omega) (by omega)
    rw [this, Int.toNat_of_nonneg (by omega)]
  · rw [Int.emod_eq_of_lt (by omega : 0 ≤ -v + P) (by omega)]
    rw [show -v + P - P = -v by ring, Int.emod_eq_of_lt (by omega) (by omega)]
    exact Int.toNat_of_nonneg (by omega)

/-! ## The Integer entry computes the sum -/

/-- With `x` owned and `y` a host integer, whichever arm of lines 69-85 is
taken returns the sum. -/
theorem Integer_Add_x_owned_pylong (E : Env) (context : Option CTXT_Object) (a n : Int) :
    ∃ t, Integer_Add_x_owned E (.mpz a) (.pylong n) context =
      some ⟨.value (.mpz (a + n)), context, t⟩ := by
  simp only [Integer_Add_x_owned, CHECK_MPZANY, PyIntOrLong_Check, PyLong_AsSIAndOverflow,
    if_true, MPZ, mpz_set_PyIntOrLong, mpz_add, mpz_add_ui, mpz_sub_ui]
  by_cases h1 : n < SI_MIN E.W
  · simp [h1]
  · by_cases h2 : SI_MAX E.W < n
    · simp [h1, h2]
    · by_cases h3 : n ≥ 0
      · simp [h1, h2, h3, to_ui_nonneg E.W E.W_pos n h3 (by omega)]
      · simp [h1, h2, h3, to_ui_neg_si E.W E.W_pos n (by omega) (by omega)]

/-- With `y` owned and `x` a host integer, whichever arm of lines 93-109 is
taken returns the sum. -/
theorem Integer_Add_y_owned_pylong (E : Env) (context : Option CTXT_Object) (a n : Int) :
    ∃ t, Integer_Add_y_owned E (.pylong n) (.mpz a) context =
      some ⟨.value (.mpz (a + n)), context, t⟩ := by
  simp only [Integer_Add_y_owned, CHECK_MPZANY, PyIntOrLong_Check, PyLong_AsSIAndOverflow,
    if_true, MPZ, mpz_set_PyIntOrLong, mpz_add, mpz_add_ui, mpz_sub_ui]
  by_cases h1 : n < SI_MIN E.W
  · simp [h1]
  · by_cases h2 : SI_MAX E.W < n
    · simp [h1, h2]
    · by_cases h3 : n > 0
      · simp [h1, h2, h3, to_ui_nonneg E.W E.W_pos n (by omega) (by omega)]
      · simp [h1, h2, h3, to_ui_neg_si E.W E.W_pos n (by omega) (by omega)]

/-! ## Shapes of the outcomes of the four entries -/

theorem Integer_Temp_of_IS_INTEGER (x : PyObject) (h : IS_INTEGER x = true) :
    ∃ v, ∀ ok, GMPy_MPZ_From_Integer_Temp ok x = if ok then some v else none := by
  cases x <;> first
    | exact ⟨_, fun _ => rfl⟩
    | simp [IS_INTEGER] at h

theorem Integer_Add_x_owned_spec (E : Env) (x y : PyObject) (context : Option CTXT_Object) :
    (IS_INTEGER x = true ∧ IS_INTEGER y = true ∧
      ∃ z t, Integer_Add_x_owned E x y context = some ⟨.value (.mpz z), context, t⟩) ∨
    Integer_Add_x_owned E x y context = none := by
  cases x with
  | mpz a =>
    cases y with
    | pylong n =>
      obtain ⟨t, ht⟩ := Integer_Add_x_owned_pylong E context a n
      exact Or.inl ⟨rfl, rfl, _, t, ht⟩
    | mpz b => left; simp [Integer_Add_x_owned, CHECK_MPZANY, PyIntOrLong_Check, IS_INTEGER]
    | _ => right; simp [Integer_Add_x_owned, CHECK_MPZANY, PyIntOrLong_Check]
  | _ => right; simp [Integer_Add_x_owned, CHECK_MPZANY]

theorem Integer_Add_y_owned_spec (E : Env) (x y : PyObject) (context : Option CTXT_Object) :
    (IS_INTEGER x = true ∧ IS_INTEGER y = true ∧
      ∃ z t, Integer_Add_y_owned E x y context = some ⟨.value (.mpz z), context, t⟩) ∨
    Integer_Add_y_owned E x y context = none := by
  cases y with
  | mpz a =>
    cases x with
    | pylong n =>
      obtain ⟨t, ht⟩ := Integer_Add_y_owned_pylong E context a n
      exact Or.inl ⟨rfl, rfl, _, t, ht⟩
    | _ => right; simp [Integer_Add_y_owned, CHECK_MPZANY, PyIntOrLong_Check]
  | _ => right; simp [Integer_Add_y_owned, CHECK_MPZANY]

theorem Integer_Add_generic_spec (E : Env) (x y : PyObject) (context : Option CTXT_Object) :
    (IS_INTEGER x = true ∧ IS_INTEGER y = true ∧
      ((E.tempx_ok = true ∧ E.tempy_ok = true ∧
          ∃ z t, Integer_Add_generic E x y context = some ⟨.value (.mpz z), context, t⟩) ∨
       ((E.tempx_ok = false ∨ E.tempy_ok = false) ∧
          ∃ t, Integer_Add_generic E x y context =
            some ⟨.error .HostConversionFailure, context, t⟩))) ∨
    (¬ (IS_INTEGER x = true ∧ IS_INTEGER y = true) ∧ Integer_Add_generic E x y context = none) := by
  by_cases h : IS_INTEGER x = true ∧ IS_INTEGER y = true
  · left
    obtain ⟨vx, hvx⟩ := Integer_Temp_of_IS_INTEGER x h.1
    obtain ⟨vy, hvy⟩ := Integer_Temp_of_IS_INTEGER y h.2
    refine ⟨h.1, h.2, ?_⟩
    cases hx : E.tempx_ok <;> cases hy : E.tempy_ok <;>
      simp [Integer_Add_generic, h.1, h.2, hvx, hvy, hx, hy]
  · right
    refine ⟨h, ?_⟩
    simp only [Integer_Add_generic, Bool.and_eq_true]
    rw [if_neg h]

theorem Integer_Add_ret_cases (E : Env) (x y : PyObject) (context : Option CTXT_Object) :
    (E.result_ok = false ∧ (GMPy_Integer_Add E x y context).ret = .error .AllocationFailure) ∨
    (E.result_ok = true ∧ IS_INTEGER x = true ∧ IS_INTEGER y = true ∧
      ((∃ z, (GMPy_Integer_Add E x y context).ret = .value (.mpz z)) ∨
       ((GMPy_Integer_Add E x y context).ret = .error .HostConversionFailure ∧
         (E.tempx_ok = false ∨ E.tempy_ok = false)))) ∨
    (E.result_ok = true ∧ ¬ (IS_INTEGER x = true ∧ IS_INTEGER y = true) ∧
      (GMPy_Integer_Add E x y context).ret = .NotImplemented) := by
  cases hr : E.result_ok
  · simp [GMPy_Integer_Add, hr]
  · right
    rcases Integer_Add_x_owned_spec E x y context with ⟨hx, hy, z, t, h1⟩ | h1
    · exact Or.inl ⟨rfl, hx, hy, Or.inl ⟨z, by simp [GMPy_Integer_Add, hr, h1]⟩⟩
    · rcases Integer_Add_y_owned_spec E x y context with ⟨hx, hy, z, t, h2⟩ | h2
      · exact Or.inl ⟨rfl, hx, hy, Or.inl ⟨z, by simp [GMPy_Integer_Add, hr, h1, h2]⟩⟩
      · rcases Integer_Add_generic_spec E x y context with
          ⟨hx, hy, ⟨_, _, z, t, h3⟩ | ⟨hf, t, h3⟩⟩ | ⟨hn, h3⟩
        · exact Or.inl ⟨rfl, hx, hy, Or.inl ⟨z, by simp [GMPy_Integer_Add, hr, h1, h2, h3]⟩⟩
        · exact Or.inl ⟨rfl, hx, hy, Or.inr ⟨by simp [GMPy_Integer_Add, hr, h1, h2, h3], hf⟩⟩
        · exact Or.inr ⟨rfl, hn, by simp [GMPy_Integer_Add, hr, h1, h2, h3]⟩

theorem Integer_Add_succeeds (E : Env) (x y : PyObject) (context : Option CTXT_Object)
    (hr : E.result_ok = true) (htx : E.tempx_ok = true) (hty : E.tempy_ok = true)
    (hx : IS_INTEGER x = true) (hy : IS_INTEGER y = true) :
    ∃ z, (GMPy_Integer_Add E x y context).ret = .value (.mpz z) := by
  rcases Integer_Add_ret_cases E x y context with ⟨h, _⟩ | ⟨_, _, _, h | ⟨_, h⟩⟩ | ⟨_, h, _⟩
  · simp [hr] at h
  · exact h
  · simp [htx, hty] at h
  · exact absurd ⟨hx, hy⟩ h

theorem Number_Temp_of_admissible (x : PyObject)
    (h : (IS_RATIONAL x || IS_DECIMAL x) = true) :
    ∃ v, ∀ ok, GMPy_MPQ_From_Number_Temp ok x = if ok then some v else none := by
  cases x <;> first
    | exact ⟨_, fun _ => rfl⟩
    | simp [IS_RATIONAL, IS_INTEGER, IS_DECIMAL] at h

theorem Real_Temp_of_IS_REAL (E : Env) (context : CTXT_Object) (x : PyObject)
    (h : IS_REAL x = true) :
    ∃ v, ∀ ok, GMPy_MPFR_From_Real_Temp E ok context x = if ok then some v else none := by
  refine ⟨E.real_temp (real_dest context) (GET_MPFR_ROUND context) x, fun ok => ?_⟩
  cases ok <;> simp [GMPy_MPFR_From_Real_Temp, h]

theorem Complex_Temp_of_IS_COMPLEX (E : Env) (context : CTXT_Object) (x : PyObject)
    (h : IS_COMPLEX x = true) :
    ∃ v, ∀ ok, GMPy_MPC_From_Complex_Temp E ok context x = if ok then some v else none := by
  refine ⟨E.complex_temp (complex_dest context) context.real_round context.imag_round x,
    fun ok => ?_⟩
  cases ok <;> simp [GMPy_MPC_From_Complex_Temp, h]

theorem IS_REAL_of_CheckAndExp (context : CTXT_Object) (x : PyObject)
    (h : MPFR_CheckAndExp context x = true) : IS_REAL x = true := by
  cases x <;> simp_all [MPFR_CheckAndExp, IS_REAL, MPFR_Check]

theorem IS_COMPLEX_of_CheckAndExp (context : CTXT_Object) (x : PyObject)
    (h : MPC_CheckAndExp context x = true) : IS_COMPLEX x = true := by
  cases x <;> simp_all [MPC_CheckAndExp, IS_COMPLEX, MPC_Check]

theorem Real_Add_both_owned_spec (E : Env) (x y : PyObject) (context : CTXT_Object) :
    (IS_REAL x = true ∧ IS_REAL y = true ∧
      ∃ r t, Real_Add_both_owned E x y context = some (.done r t)) ∨
    Real_Add_both_owned E x y context = none := by
  by_cases h : MPFR_CheckAndExp context x = true ∧ MPFR_CheckAndExp context y = true
  · exact Or.inl ⟨IS_REAL_of_CheckAndExp _ _ h.1, IS_REAL_of_CheckAndExp _ _ h.2, _, _,
      by simp [Real_Add_both_owned, h.1, h.2]; exact ⟨rfl, rfl⟩⟩
  · right
    simp only [Real_Add_both_owned, Bool.and_eq_true]
    rw [if_neg h]

theorem Real_Add_x_owned_spec (E : Env) (x y : PyObject) (context : CTXT_Object) :
    (IS_REAL x = true ∧ IS_REAL y = true ∧
      ((∃ r t, Real_Add_x_owned E x y context = some (.done r t)) ∨
       (E.tempy_ok = false ∧
         ∃ t, Real_Add_x_owned E x y context = some (.fail .HostConversionFailure t)))) ∨
    Real_Add_x_owned E x y context = none := by
  by_cases h : MPFR_CheckAndExp context x = true
  · have hx := IS_REAL_of_CheckAndExp _ _ h
    cases y with
    | pylong n =>
      refine Or.inl ⟨hx, rfl, Or.inl ?_⟩
      simp only [Real_Add_x_owned, h, PyIntOrLong_Check, if_true]
      split <;> exact ⟨_, _, rfl⟩
    | mpz b =>
      exact Or.inl ⟨hx, rfl, Or.inl ⟨_, _, by
        simp only [Real_Add_x_owned, h, PyIntOrLong_Check, CHECK_MPZANY, if_true]; rfl⟩⟩
    | pyfloat d =>
      exact Or.inl ⟨hx, rfl, Or.inl ⟨_, _, by
        simp [Real_Add_x_owned, h, PyIntOrLong_Check, CHECK_MPZANY, IS_RATIONAL, IS_INTEGER,
          IS_DECIMAL, PyFloat_Check]; exact ⟨rfl, rfl⟩⟩⟩
    | intlike v =>
      refine Or.inl ⟨hx, rfl, ?_⟩
      cases hy : E.tempy_ok <;>
        simp [Real_Add_x_owned, h, hy, PyIntOrLong_Check, CHECK_MPZANY, IS_RATIONAL, IS_INTEGER,
          GMPy_MPQ_From_Number_Temp]
    | fraction q =>
      refine Or.inl ⟨hx, rfl, ?_⟩
      cases hy : E.tempy_ok <;>
        simp [Real_Add_x_owned, h, hy, PyIntOrLong_Check, CHECK_MPZANY, IS_RATIONAL, IS_INTEGER,
          GMPy_MPQ_From_Number_Temp]
    | mpq q =>
      refine Or.inl ⟨hx, rfl, ?_⟩
      cases hy : E.tempy_ok <;>
        simp [Real_Add_x_owned, h, hy, PyIntOrLong_Check, CHECK_MPZANY, IS_RATIONAL, IS_INTEGER,
          GMPy_MPQ_From_Number_Temp]
    | decimal q =>
      refine Or.inl ⟨hx, rfl, ?_⟩
      cases hy : E.tempy_ok <;>
        simp [Real_Add_x_owned, h, hy, PyIntOrLong_Check, CHECK_MPZANY, IS_RATIONAL, IS_INTEGER,
          IS_DECIMAL, GMPy_MPQ_From_Number_Temp]
    | _ =>
      right
      simp [Real_Add_x_owned, h, PyIntOrLong_Check, CHECK_MPZANY, IS_RATIONAL, IS_INTEGER,
        IS_DECIMAL, PyFloat_Check]
  · right
    simp only [Real_Add_x_owned]
    rw [if_neg h]

theorem Real_Add_y_owned_spec (E : Env) (x y : PyObject) (context : CTXT_Object) :
    (IS_REAL x = true ∧ IS_REAL y = true ∧
      ((∃ r t, Real_Add_y_owned E x y context = some (.done r t)) ∨
       (E.tempx_ok = false ∧
         ∃ t, Real_Add_y_owned E x y context = some (.fail .HostConversionFailure t)))) ∨
    Real_Add_y_owned E x y context = none := by
  by_cases h : MPFR_CheckAndExp context y = true
  · have hy := IS_REAL_of_CheckAndExp _ _ h
    cases x with
    | pylong n =>
      refine Or.inl ⟨rfl, hy, Or.inl ?_⟩
      simp only [Real_Add_y_owned, h, PyIntOrLong_Check, if_true]
      split <;> exact ⟨_, _, rfl⟩
    | mpz b =>
      exact Or.inl ⟨rfl, hy, Or.inl ⟨_, _, by
        simp only [Real_Add_y_owned, h, PyIntOrLong_Check, CHECK_MPZANY, if_true]; rfl⟩⟩
    | pyfloat d =>
      exact Or.inl ⟨rfl, hy, Or.inl ⟨_, _, by
        simp [Real_Add_y_owned, h, PyIntOrLong_Check, CHECK_MPZANY, IS_RATIONAL, IS_INTEGER,
          IS_DECIMAL, PyFloat_Check]; exact ⟨rfl, rfl⟩⟩⟩
    | intlike v =>
      refine Or.inl ⟨rfl, hy, ?_⟩
      cases hx : E.tempx_ok <;>
        simp [Real_Add_y_owned, h, hx, PyIntOrLong_Check, CHECK_MPZANY, IS_RATIONAL, IS_INTEGER,
          GMPy_MPQ_From_Number_Temp]
    | fraction q =>
      refine Or.inl ⟨rfl, hy, ?_⟩
      cases hx : E.tempx_ok <;>
        simp [Real_Add_y_owned, h, hx, PyIntOrLong_Check, CHECK_MPZANY, IS_RATIONAL, IS_INTEGER,
          GMPy_MPQ_From_Number_Temp]
    | mpq q =>
      refine Or.inl ⟨rfl, hy, ?_⟩
      cases hx : E.tempx_ok <;>
        simp [Real_Add_y_owned, h, hx, PyIntOrLong_Check, CHECK_MPZANY, IS_RATIONAL, IS_INTEGER,
          GMPy_MPQ_From_Number_Temp]
    | decimal q =>
      refine Or.inl ⟨rfl, hy, ?_⟩
      cases hx : E.tempx_ok <;>
        simp [Real_Add_y_owned, h, hx, PyIntOrLong_Check, CHECK_MPZANY, IS_RATIONAL, IS_INTEGER,
          IS_DECIMAL, GMPy_MPQ_From_Number_Temp]
    | _ =>
      right
      simp [Real_Add_y_owned, h, PyIntOrLong_Check, CHECK_MPZANY, IS_RATIONAL, IS_INTEGER,
        IS_DECIMAL, PyFloat_Check]
  · right
    simp only [Real_Add_y_owned]
    rw [if_neg h]

theorem Real_Add_generic_spec (E : Env) (x y : PyObject) (context : CTXT_Object) :
    (IS_REAL x = true ∧ IS_REAL y = true ∧
      ((E.tempx_ok = true ∧ E.tempy_ok = true ∧
          ∃ r t, Real_Add_generic E x y context = some (.done r t)) ∨
       ((E.tempx_ok = false ∨ E.tempy_ok = false) ∧
          ∃ t, Real_Add_generic E x y context = some (.fail .HostConversionFailure t)))) ∨
    (¬ (IS_REAL x = true ∧ IS_REAL y = true) ∧ Real_Add_generic E x y context = none) := by
  by_cases h : IS_REAL x = true ∧ IS_REAL y = true
  · left
    obtain ⟨vx, hvx⟩ := Real_Temp_of_IS_REAL E context x h.1
    obtain ⟨vy, hvy⟩ := Real_Temp_of_IS_REAL E context y h.2
    refine ⟨h.1, h.2, ?_⟩
    cases hx : E.tempx_ok <;> cases hy : E.tempy_ok <;>
      simp [Real_Add_generic, h.1, h.2, hvx, hvy, hx, hy]
  · right
    refine ⟨h, ?_⟩
    simp only [Real_Add_generic, Bool.and_eq_true]
    rw [if_neg h]

theorem Flags.meets_none (a : Flags) : a.meets Flags.none = false := by
  simp [Flags.meets, Flags.none]

theorem MPFR_CLEANUP_2_ret (E : Env) (context : CTXT_Object) (r : Rounded mpfr_t)
    (t : List Event) :
    (∃ f rc, (MPFR_CLEANUP_2 E context r t).ret = .value (.mpfr f rc)) ∨
    (∃ s, (MPFR_CLEANUP_2 E context r t).ret = .error (.TrappedConditions s) ∧
      s.meets context.traps = true) := by
  cases h : (E.mpfr_subnormalize (real_dest context) (GET_MPFR_ROUND context) r).flags.meets
      context.traps <;> simp [MPFR_CLEANUP_2, h]

theorem Real_Add_ret_cases (E : Env) (x y : PyObject) (context : Option CTXT_Object) :
    (E.result_ok = false ∧ (GMPy_Real_Add E x y context).ret = .error .AllocationFailure) ∨
    (E.result_ok = true ∧ IS_REAL x = true ∧ IS_REAL y = true ∧
      RealOutcome E (context.getD E.active).traps (GMPy_Real_Add E x y context).ret) ∨
    (E.result_ok = true ∧ ¬ (IS_REAL x = true ∧ IS_REAL y = true) ∧
      (GMPy_Real_Add E x y context).ret = .NotImplemented) := by
  cases hr : E.result_ok
  · simp [GMPy_Real_Add, hr]
  · right
    have done : ∀ r t,
        RealOutcome E (context.getD E.active).traps
          (MPFR_CLEANUP_2 E (context.getD E.active) r t).ret := by
      intro r t
      rcases MPFR_CLEANUP_2_ret E (context.getD E.active) r t with h | h
      · exact Or.inl h
      · exact Or.inr (Or.inr h)
    rcases Real_Add_both_owned_spec E x y (context.getD E.active) with ⟨hx, hy, r, t, h0⟩ | h0
    · refine Or.inl ⟨rfl, hx, hy, ?_⟩
      simp only [GMPy_Real_Add, hr, h0]
      exact done _ _
    rcases Real_Add_x_owned_spec E x y (context.getD E.active) with
      ⟨hx, hy, ⟨r, t, h1⟩ | ⟨hf, t, h1⟩⟩ | h1
    · refine Or.inl ⟨rfl, hx, hy, ?_⟩
      simp only [GMPy_Real_Add, hr, h0, h1]
      exact done _ _
    · refine Or.inl ⟨rfl, hx, hy, Or.inr (Or.inl ⟨?_, Or.inr hf⟩)⟩
      simp [GMPy_Real_Add, hr, h0, h1]
    rcases Real_Add_y_owned_spec E x y (context.getD E.active) with
      ⟨hx, hy, ⟨r, t, h2⟩ | ⟨hf, t, h2⟩⟩ | h2
    · refine Or.inl ⟨rfl, hx, hy, ?_⟩
      simp only [GMPy_Real_Add, hr, h0, h1, h2]
      exact done _ _
    · refine Or.inl ⟨rfl, hx, hy, Or.inr (Or.inl ⟨?_, Or.inl hf⟩)⟩
      simp [GMPy_Real_Add, hr, h0, h1, h2]
    rcases Real_Add_generic_spec E x y (context.getD E.active) with
      ⟨hx, hy, ⟨_, _, r, t, h3⟩ | ⟨hf, t, h3⟩⟩ | ⟨hn, h3⟩
    · refine Or.inl ⟨rfl, hx, hy, ?_⟩
      simp only [GMPy_Real_Add, hr, h0, h1, h2, h3]
      exact done _ _
    · refine Or.inl ⟨rfl, hx, hy, Or.inr (Or.inl ⟨?_, hf⟩)⟩
      simp [GMPy_Real_Add, hr, h0, h1, h2, h3]
    · refine Or.inr ⟨rfl, hn, ?_⟩
      simp [GMPy_Real_Add, hr, h0, h1, h2, h3]

theorem IS_RATIONAL_of_MPQ_Check (x : PyObject) (h : MPQ_Check x = true) :
    IS_RATIONAL x = true := by
  cases x <;> simp_all [MPQ_Check, IS_RATIONAL]

theorem Rational_Temp_of_IS_RATIONAL (x : PyObject) (h : IS_RATIONAL x = true) :
    ∃ v, ∀ ok, GMPy_MPQ_From_Number_Temp ok x = if ok then some v else none :=
  Number_Temp_of_admissible x (by simp [h])

theorem Rational_Add_ret_cases (E : Env) (x y : PyObject) (context : Option CTXT_Object) :
    (E.result_ok = false ∧ (GMPy_Rational_Add E x y context).ret = .error .AllocationFailure) ∨
    (E.result_ok = true ∧ IS_RATIONAL x = true ∧ IS_RATIONAL y = true ∧
      RationalOutcome E (GMPy_Rational_Add E x y context).ret) ∨
    (E.result_ok = true ∧ ¬ (IS_RATIONAL x = true ∧ IS_RATIONAL y = true) ∧
      (GMPy_Rational_Add E x y context).ret = .NotImplemented) := by
  cases hr : E.result_ok
  · simp [GMPy_Rational_Add, hr]
  · right
    by_cases h0 : MPQ_Check x = true ∧ MPQ_Check y = true
    · exact Or.inl ⟨rfl, IS_RATIONAL_of_MPQ_Check x h0.1, IS_RATIONAL_of_MPQ_Check y h0.2,
        Or.inl ⟨_, by simp [GMPy_Rational_Add, hr, h0.1, h0.2]; rfl⟩⟩
    · have h0' : (MPQ_Check x && MPQ_Check y) = false := by
        simpa [Bool.and_eq_true] using h0
      by_cases h : IS_RATIONAL x = true ∧ IS_RATIONAL y = true
      · obtain ⟨vx, hvx⟩ := Rational_Temp_of_IS_RATIONAL x h.1
        obtain ⟨vy, hvy⟩ := Rational_Temp_of_IS_RATIONAL y h.2
        refine Or.inl ⟨rfl, h.1, h.2, ?_⟩
        cases hx : E.tempx_ok <;> cases hy : E.tempy_ok <;>
          simp [RationalOutcome, GMPy_Rational_Add, hr, h0', h.1, h.2, hvx, hvy, hx, hy]
      · have h' : (IS_RATIONAL x && IS_RATIONAL y) = false := by
          simpa [Bool.and_eq_true] using h
        exact Or.inr ⟨rfl, h, by simp [GMPy_Rational_Add, hr, h0', h']⟩

theorem Complex_Add_both_owned_spec (E : Env) (x y : PyObject) (context : CTXT_Object) :
    (IS_COMPLEX x = true ∧ IS_COMPLEX y = true ∧
      ∃ r t, Complex_Add_both_owned E x y context = some (.done r t)) ∨
    Complex_Add_both_owned E x y context = none := by
  by_cases h : MPC_CheckAndExp context x = true ∧ MPC_CheckAndExp context y = true
  · exact Or.inl ⟨IS_COMPLEX_of_CheckAndExp _ _ h.1, IS_COMPLEX_of_CheckAndExp _ _ h.2, _, _,
      by simp [Complex_Add_both_owned, h.1, h.2]; exact ⟨rfl, rfl⟩⟩
  · right
    simp only [Complex_Add_both_owned, Bool.and_eq_true]
    rw [if_neg h]

theorem Complex_Add_generic_spec (E : Env) (x y : PyObject) (context : CTXT_Object) :
    (IS_COMPLEX x = true ∧ IS_COMPLEX y = true ∧
      ((E.tempx_ok = true ∧ E.tempy_ok = true ∧
          ∃ r t, Complex_Add_generic E x y context = some (.done r t)) ∨
       ((E.tempx_ok = false ∨ E.tempy_ok = false) ∧
          ∃ t, Complex_Add_generic E x y context = some (.fail .HostConversionFailure t)))) ∨
    (¬ (IS_COMPLEX x = true ∧ IS_COMPLEX y = true) ∧
      Complex_Add_generic E x y context = none) := by
  by_cases h : IS_COMPLEX x = true ∧ IS_COMPLEX y = true
  · left
    obtain ⟨vx, hvx⟩ := Complex_Temp_of_IS_COMPLEX E context x h.1
    obtain ⟨vy, hvy⟩ := Complex_Temp_of_IS_COMPLEX E context y h.2
    refine ⟨h.1, h.2, ?_⟩
    cases hx : E.tempx_ok <;> cases hy : E.tempy_ok <;>
      simp [Complex_Add_generic, h.1, h.2, hvx, hvy, hx, hy]
  · right
    refine ⟨h, ?_⟩
    simp only [Complex_Add_generic, Bool.and_eq_true]
    rw [if_neg h]

theorem MPC_CLEANUP_2_ret (E : Env) (context : CTXT_Object) (r : Rounded mpc_t)
    (t : List Event) :
    (∃ c rc, (MPC_CLEANUP_2 E context r t).ret = .value (.mpc c rc)) ∨
    (∃ s, (MPC_CLEANUP_2 E context r t).ret = .error (.TrappedConditions s) ∧
      s.meets context.traps = true) := by
  cases h : (E.mpc_subnormalize (complex_dest context) context.real_round context.imag_round
      r).flags.meets context.traps <;> simp [MPC_CLEANUP_2, h]

theorem Complex_Add_ret_cases (E : Env) (x y : PyObject) (context : Option CTXT_Object) :
    (E.result_ok = false ∧ (GMPy_Complex_Add E x y context).ret = .error .AllocationFailure) ∨
    (E.result_ok = true ∧ IS_COMPLEX x = true ∧ IS_COMPLEX y = true ∧
      ComplexOutcome E (context.getD E.active).traps (GMPy_Complex_Add E x y context).ret) ∨
    (E.result_ok = true ∧ ¬ (IS_COMPLEX x = true ∧ IS_COMPLEX y = true) ∧
      (GMPy_Complex_Add E x y context).ret = .NotImplemented) := by
  cases hr : E.result_ok
  · simp [GMPy_Complex_Add, hr]
  · right
    have done : ∀ r t,
        ComplexOutcome E (context.getD E.active).traps
          (MPC_CLEANUP_2 E (context.getD E.active) r t).ret := by
      intro r t
      rcases MPC_CLEANUP_2_ret E (context.getD E.active) r t with h | h
      · exact Or.inl h
      · exact Or.inr (Or.inr h)
    rcases Complex_Add_both_owned_spec E x y (context.getD E.active) with
      ⟨hx, hy, r, t, h0⟩ | h0
    · refine Or.inl ⟨rfl, hx, hy, ?_⟩
      simp only [GMPy_Complex_Add, hr, h0]
      exact done _ _
    rcases Complex_Add_generic_spec E x y (context.getD E.active) with
      ⟨hx, hy, ⟨_, _, r, t, h3⟩ | ⟨hf, t, h3⟩⟩ | ⟨hn, h3⟩
    · refine Or.inl ⟨rfl, hx, hy, ?_⟩
      simp only [GMPy_Complex_Add, hr, h0, h3]
      exact done _ _
    · refine Or.inl ⟨rfl, hx, hy, Or.inr (Or.inl ⟨?_, hf⟩)⟩
      simp [GMPy_Complex_Add, hr, h0, h3]
    · refine Or.inr ⟨rfl, hn, ?_⟩
      simp [GMPy_Complex_Add, hr, h0, h3]

/-! ## Consequences for each entry -/

theorem Integer_Add_value_kind (E : Env) (x y : PyObject) (context : Option CTXT_Object)
    (v : PyObject) (h : (GMPy_Integer_Add E x y context).ret = .value v) :
    kind_of_value v = .Integer := by
  rcases Integer_Add_ret_cases E x y context with ⟨_, h1⟩ | ⟨_, _, _, ⟨z, h1⟩ | ⟨h1, _⟩⟩ | ⟨_, _, h1⟩ <;>
    rw [h1] at h <;> cases h
  rfl

theorem Rational_Add_value_kind (E : Env) (x y : PyObject) (context : Option CTXT_Object)
    (v : PyObject) (h : (GMPy_Rational_Add E x y context).ret = .value v) :
    kind_of_value v = .Rational := by
  rcases Rational_Add_ret_cases E x y context with ⟨_, h1⟩ | ⟨_, _, _, ⟨z, h1⟩ | ⟨h1, _⟩⟩ | ⟨_, _, h1⟩ <;>
    rw [h1] at h <;> cases h
  rfl

theorem Real_Add_value_kind (E : Env) (x y : PyObject) (context : Option CTXT_Object)
    (v : PyObject) (h : (GMPy_Real_Add E x y context).ret = .value v) :
    kind_of_value v = .Real := by
  rcases Real_Add_ret_cases E x y context with
    ⟨_, h1⟩ | ⟨_, _, _, ⟨f, rc, h1⟩ | ⟨h1, _⟩ | ⟨s, h1, _⟩⟩ | ⟨_, _, h1⟩ <;>
    rw [h1] at h <;> cases h
  rfl

theorem Complex_Add_value_kind (E : Env) (x y : PyObject) (context : Option CTXT_Object)
    (v : PyObject) (h : (GMPy_Complex_Add E x y context).ret = .value v) :
    kind_of_value v = .Complex := by
  rcases Complex_Add_ret_cases E x y context with
    ⟨_, h1⟩ | ⟨_, _, _, ⟨f, rc, h1⟩ | ⟨h1, _⟩ | ⟨s, h1, _⟩⟩ | ⟨_, _, h1⟩ <;>
    rw [h1] at h <;> cases h
  rfl

theorem Rational_Add_succeeds (E : Env) (x y : PyObject) (context : Option CTXT_Object)
    (hr : E.result_ok = true) (htx : E.tempx_ok = true) (hty : E.tempy_ok = true)
    (hx : IS_RATIONAL x = true) (hy : IS_RATIONAL y = true) :
    ∃ q, (GMPy_Rational_Add E x y context).ret = .value (.mpq q) := by
  rcases Rational_Add_ret_cases E x y context with ⟨h, _⟩ | ⟨_, _, _, h | ⟨_, h⟩⟩ | ⟨_, h, _⟩
  · simp [hr] at h
  · exact h
  · simp [htx, hty] at h
  · exact absurd ⟨hx, hy⟩ h

theorem Real_Add_succeeds (E : Env) (x y : PyObject) (context : Option CTXT_Object)
    (hr : E.result_ok = true) (htx : E.tempx_ok = true) (hty : E.tempy_ok = true)
    (ht : (context.getD E.active).traps = Flags.none)
    (hx : IS_REAL x = true) (hy : IS_REAL y = true) :
    ∃ f rc, (GMPy_Real_Add E x y context).ret = .value (.mpfr f rc) := by
  rcases Real_Add_ret_cases E x y context with
    ⟨h, _⟩ | ⟨_, _, _, h | ⟨_, h⟩ | ⟨s, _, h⟩⟩ | ⟨_, h, _⟩
  · simp [hr] at h
  · exact h
  · simp [htx, hty] at h
  · simp [ht, Flags.meets_none] at h
  · exact absurd ⟨hx, hy⟩ h

theorem Complex_Add_succeeds (E : Env) (x y : PyObject) (context : Option CTXT_Object)
    (hr : E.result_ok = true) (htx : E.tempx_ok = true) (hty : E.tempy_ok = true)
    (ht : (context.getD E.active).traps = Flags.none)
    (hx : IS_COMPLEX x = true) (hy : IS_COMPLEX y = true) :
    ∃ c rc, (GMPy_Complex_Add E x y context).ret = .value (.mpc c rc) := by
  rcases Complex_Add_ret_cases E x y context with
    ⟨h, _⟩ | ⟨_, _, _, h | ⟨_, h⟩ | ⟨s, _, h⟩⟩ | ⟨_, h, _⟩
  · simp [hr] at h
  · exact h
  · simp [htx, hty] at h
  · simp [ht, Flags.meets_none] at h
  · exact absurd ⟨hx, hy⟩ h

theorem Integer_Add_notimpl_iff (E : Env) (x y : PyObject) (context : Option CTXT_Object) :
    (GMPy_Integer_Add E x y context).ret = .NotImplemented ↔
      (E.result_ok = true ∧ ¬ (IS_INTEGER x = true ∧ IS_INTEGER y = true)) := by
  rcases Integer_Add_ret_cases E x y context with
    ⟨h0, h1⟩ | ⟨h0, hx, hy, ⟨z, h1⟩ | ⟨h1, _⟩⟩ | ⟨h0, hn, h1⟩ <;> simp_all

theorem Rational_Add_notimpl_iff (E : Env) (x y : PyObject) (context : Option CTXT_Object) :
    (GMPy_Rational_Add E x y context).ret = .NotImplemented ↔
      (E.result_ok = true ∧ ¬ (IS_RATIONAL x = true ∧ IS_RATIONAL y = true)) := by
  rcases Rational_Add_ret_cases E x y context with
    ⟨h0, h1⟩ | ⟨h0, hx, hy, ⟨z, h1⟩ | ⟨h1, _⟩⟩ | ⟨h0, hn, h1⟩ <;> simp_all

theorem Real_Add_notimpl_iff (E : Env) (x y : PyObject) (context : Option CTXT_Object) :
    (GMPy_Real_Add E x y context).ret = .NotImplemented ↔
      (E.result_ok = true ∧ ¬ (IS_REAL x = true ∧ IS_REAL y = true)) := by
  rcases Real_Add_ret_cases E x y context with
    ⟨h0, h1⟩ | ⟨h0, hx, hy, ⟨f, rc, h1⟩ | ⟨h1, _⟩ | ⟨s, h1, _⟩⟩ | ⟨h0, hn, h1⟩ <;> simp_all

theorem Complex_Add_notimpl_iff (E : Env) (x y : PyObject) (context : Option CTXT_Object) :
    (GMPy_Complex_Add E x y context).ret = .NotImplemented ↔
      (E.result_ok = true ∧ ¬ (IS_COMPLEX x = true ∧ IS_COMPLEX y = true)) := by
  rcases Complex_Add_ret_cases E x y context with
    ⟨h0, h1⟩ | ⟨h0, hx, hy, ⟨f, rc, h1⟩ | ⟨h1, _⟩ | ⟨s, h1, _⟩⟩ | ⟨h0, hn, h1⟩ <;> simp_all

theorem Integer_Add_not_TypeMismatch (E : Env) (x y : PyObject) (context : Option CTXT_Object) :
    (GMPy_Integer_Add E x y context).ret ≠ .error .TypeMismatch := by
  rcases Integer_Add_ret_cases E x y context with
    ⟨h0, h1⟩ | ⟨h0, hx, hy, ⟨z, h1⟩ | ⟨h1, _⟩⟩ | ⟨h0, hn, h1⟩ <;> simp [h1]

theorem Rational_Add_not_TypeMismatch (E : Env) (x y : PyObject) (context : Option CTXT_Object) :
    (GMPy_Rational_Add E x y context).ret ≠ .error .TypeMismatch := by
  rcases Rational_Add_ret_cases E x y context with
    ⟨h0, h1⟩ | ⟨h0, hx, hy, ⟨z, h1⟩ | ⟨h1, _⟩⟩ | ⟨h0, hn, h1⟩ <;> simp [h1]

theorem Real_Add_not_TypeMismatch (E : Env) (x y : PyObject) (context : Option CTXT_Object) :
    (GMPy_Real_Add E x y context).ret ≠ .error .TypeMismatch := by
  rcases Real_Add_ret_cases E x y context with
    ⟨h0, h1⟩ | ⟨h0, hx, hy, ⟨f, rc, h1⟩ | ⟨h1, _⟩ | ⟨s, h1, _⟩⟩ | ⟨h0, hn, h1⟩ <;> simp [h1]

theorem Complex_Add_not_TypeMismatch (E : Env) (x y : PyObject) (context : Option CTXT_Object) :
    (GMPy_Complex_Add E x y context).ret ≠ .error .TypeMismatch := by
  rcases Complex_Add_ret_cases E x y context with
    ⟨h0, h1⟩ | ⟨h0, hx, hy, ⟨f, rc, h1⟩ | ⟨h1, _⟩ | ⟨s, h1, _⟩⟩ | ⟨h0, hn, h1⟩ <;> simp [h1]

/-- An operand is admitted by exactly the rungs at or above its own. -/
theorem ladder_profile (x : PyObject) :
    (rung x = .Integer ∧ IS_INTEGER x = true ∧ IS_RATIONAL x = true ∧
      IS_REAL x = true ∧ IS_COMPLEX x = true) ∨
    (rung x = .Rational ∧ IS_INTEGER x = false ∧ IS_RATIONAL x = true ∧
      IS_REAL x = true ∧ IS_COMPLEX x = true) ∨
    (rung x = .Real ∧ IS_INTEGER x = false ∧ IS_RATIONAL x = false ∧
      IS_REAL x = true ∧ IS_COMPLEX x = true) ∨
    (rung x = .Complex ∧ IS_INTEGER x = false ∧ IS_RATIONAL x = false ∧
      IS_REAL x = false ∧ IS_COMPLEX x = true) ∨
    (rung x = .Unknown ∧ IS_INTEGER x = false ∧ IS_RATIONAL x = false ∧
      IS_REAL x = false ∧ IS_COMPLEX x = false) := by
  cases x <;>
    simp [rung, IS_INTEGER, IS_RATIONAL, IS_REAL, IS_COMPLEX, MPFR_Check, PyFloat_Check,
      IS_DECIMAL, MPC_Check]

/-- The rung of an operand is the kind the classifier gives it, except for a
host decimal: the classifier lists it as a Rational shape, the ladder admits
it from the Real rung on. -/
theorem rung_eq_classify (W : Nat) (x : PyObject) :
    rung x = if IS_DECIMAL x then Kind.Real else (classify W x).1 := by
  cases x <;>
    simp [rung, classify, IS_INTEGER, IS_RATIONAL, IS_REAL, IS_COMPLEX, MPFR_Check,
      PyFloat_Check, IS_DECIMAL, MPC_Check]
  split <;> rfl

/-- The classifier and the ladder agree on which operands are Unknown. -/
theorem classify_unknown_iff (W : Nat) (x : PyObject) :
    (classify W x).1 = Kind.Unknown ↔ rung x = Kind.Unknown := by
  cases x <;>
    simp [rung, classify, IS_INTEGER, IS_RATIONAL, IS_REAL, IS_COMPLEX, MPFR_Check,
      PyFloat_Check, IS_DECIMAL, MPC_Check]
  split <;> simp

/-! ## Scenarios of the specification, by evaluation -/

/-- Scenario 1: owned `10^30` plus host `1`. -/
theorem scenario_1 :
    (GMPy_Number_Add sample_env (.mpz (10 ^ 30)) (.pylong 1) none).ret =
      .value (.mpz (10 ^ 30 + 1)) := by decide

/-- Scenario 2: owned `2^70` plus host `-3`. -/
theorem scenario_2 :
    (GMPy_Number_Add sample_env (.mpz (2 ^ 70)) (.pylong (-3)) none).ret =
      .value (.mpz (2 ^ 70 - 3)) := by decide

/-- Scenario 3: owned `1/3` plus owned `1/6`. -/
theorem scenario_3 :
    (GMPy_Number_Add sample_env (.mpq (1 / 3)) (.mpq (1 / 6)) none).ret =
      .value (.mpq (1 / 2)) := by
  simp [GMPy_Number_Add, GMPy_Rational_Add, IS_INTEGER, IS_RATIONAL, MPQ_Check, MPQ, mpq_add,
    sample_env]
  norm_num

/-- Scenario 7: a string with an owned integer. -/
theorem scenario_7 :
    (GMPy_Number_Add sample_env (.str "hi") (.mpz 1) none).ret = .error .TypeMismatch := by
  decide

/-- The least 64-bit word on the left of an owned integer takes `mpz_sub_ui` with
the word `2^63`. -/
theorem least_word_on_the_left :
    (GMPy_Integer_Add sample_env (.pylong (-2 ^ 63)) (.mpz 5) none).trace =
      [.acquire .result, .call (.mpz_sub_ui 5 (2 ^ 63))] := by decide

/-- An allocator that cannot serve the result wrapper surfaces the failure
before anything else is done. -/
theorem result_allocation_failure :
    GMPy_Integer_Add exhausted_env (.mpz 1) (.pylong 1) none =
      ⟨.error .AllocationFailure, none, []⟩ := by decide

/-! ## Properties of the dispatcher -/

/-- C1: for an owned integer `a` and a host integer `n` of any sign and
magnitude, `GMPy_Integer_Add` returns, in both operand orders, an owned
integer of value exactly `a + n`; likewise for two owned integers, and for two
host integers through the generic arm.  The only other outcome of the call is
the surfaced failure to allocate the result wrapper (or, on the generic arm,
to build a temporary). -/
theorem C1_integer_add_exact (E : Env) (context : Option CTXT_Object) (a n : Int) :
    (GMPy_Integer_Add E (.mpz a) (.pylong n) context).ret =
        (if E.result_ok then .value (.mpz (a + n)) else .error .AllocationFailure) ∧
    (GMPy_Integer_Add E (.pylong n) (.mpz a) context).ret =
        (if E.result_ok then .value (.mpz (a + n)) else .error .AllocationFailure) ∧
    (GMPy_Integer_Add E (.mpz a) (.mpz n) context).ret =
        (if E.result_ok then .value (.mpz (a + n)) else .error .AllocationFailure) ∧
    (GMPy_Integer_Add E (.pylong a) (.pylong n) context).ret =
        (if E.result_ok then
          (if E.tempx_ok && E.tempy_ok then .value (.mpz (a + n))
           else .error .HostConversionFailure)
         else .error .AllocationFailure) := by
  refine ⟨?_, ?_, ?_, ?_⟩
  · obtain ⟨t, ht⟩ := Integer_Add_x_owned_pylong E context a n
    cases hr : E.result_ok <;> simp [GMPy_Integer_Add, hr, ht]
  · obtain ⟨t, ht⟩ := Integer_Add_y_owned_pylong E context a n
    cases hr : E.result_ok <;>
      simp [GMPy_Integer_Add, hr, ht, Integer_Add_x_owned, CHECK_MPZANY]
  · cases hr : E.result_ok <;>
      simp [GMPy_Integer_Add, hr, Integer_Add_x_owned, CHECK_MPZANY, PyIntOrLong_Check, MPZ,
        mpz_add]
  · cases hr : E.result_ok <;> cases hx : E.tempx_ok <;> cases hy : E.tempy_ok <;>
      simp [GMPy_Integer_Add, hr, hx, hy, Integer_Add_x_owned, Integer_Add_y_owned,
        Integer_Add_generic, CHECK_MPZANY, IS_INTEGER, GMPy_MPZ_From_Integer_Temp, mpz_add]

/-- The kind of every value `GMPy_Number_Add` returns is the wider of the rungs
of its operands. -/
theorem Number_Add_kind_from_rung (E : Env) (x y : PyObject) (context : Option CTXT_Object)
    (hx : rung x ≠ Kind.Unknown) (hy : rung y ≠ Kind.Unknown) :
    (∀ v, (GMPy_Number_Add E x y context).ret = .value v →
      some (kind_of_value v) = common_kind (rung x) (rung y)) ∧
    (∀ v, (GMPy_Number_Add E x y context).ret = .value v → kind_of_value v = .Integer →
      rung x = .Integer ∧ rung y = .Integer) ∧
    (E.result_ok = true → E.tempx_ok = true → E.tempy_ok = true →
      (context.getD E.active).traps = Flags.none →
      ∃ v, (GMPy_Number_Add E x y context).ret = .value v) := by
  rcases ladder_profile x with
    ⟨kx, x1, x2, x3, x4⟩ | ⟨kx, x1, x2, x3, x4⟩ | ⟨kx, x1, x2, x3, x4⟩ | ⟨kx, x1, x2, x3, x4⟩ |
    ⟨kx, _⟩
  all_goals first | exact absurd kx hx | skip
  all_goals
    rcases ladder_profile y with
      ⟨ky, y1, y2, y3, y4⟩ | ⟨ky, y1, y2, y3, y4⟩ | ⟨ky, y1, y2, y3, y4⟩ |
      ⟨ky, y1, y2, y3, y4⟩ | ⟨ky, _⟩
  all_goals first | exact absurd ky hy | skip
  all_goals
    simp only [GMPy_Number_Add, x1, x2, x3, x4, y1, y2, y3, y4, kx, ky, Bool.and_self,
      Bool.and_false, Bool.false_and, Bool.and_true, if_true, if_false, common_kind]
    refine ⟨fun v hv => ?_, fun v hv hk => ?_, fun hr htx hty ht => ?_⟩
  all_goals first
    | (have h := Integer_Add_value_kind E x y context v hv
       first | rw [h] | simp)
    | (have h := Rational_Add_value_kind E x y context v hv
       first | rw [h] | (rw [h] at hk; cases hk))
    | (have h := Real_Add_value_kind E x y context v hv
       first | rw [h] | (rw [h] at hk; cases hk))
    | (have h := Complex_Add_value_kind E x y context v hv
       first | rw [h] | (rw [h] at hk; cases hk))
    | (obtain ⟨z, h⟩ := Integer_Add_succeeds E x y context hr htx hty x1 y1; exact ⟨_, h⟩)
    | (obtain ⟨z, h⟩ := Rational_Add_succeeds E x y context hr htx hty x2 y2; exact ⟨_, h⟩)
    | (obtain ⟨f, rc, h⟩ := Real_Add_succeeds E x y context hr htx hty ht x3 y3; exact ⟨_, h⟩)
    | (obtain ⟨f, rc, h⟩ := Complex_Add_succeeds E x y context hr htx hty ht x4 y4; exact ⟨_, h⟩)

theorem not_decimal_of_rung_Integer (x : PyObject) (h : rung x = Kind.Integer) :
    IS_DECIMAL x = false := by
  cases x <;> simp_all [rung, IS_INTEGER, IS_RATIONAL, IS_REAL, IS_COMPLEX, MPFR_Check,
    PyFloat_Check, IS_DECIMAL, MPC_Check]

/-- C2, as the code has it: ladder monotonicity with a host decimal counted at
the Real rung.  For operands `x`, `y` that both classify to a known kind,
every value returned by `GMPy_Number_Add` has the kind
`common_kind (rung x) (rung y)`, where the rung of an operand is the kind the
classifier gives it, except that a host decimal (a Rational shape) is admitted
from the Real rung on.  So when neither operand is a host decimal the kind is
`common_kind (classify x).kind (classify y).kind`, the wider of the two on the
ladder; an Integer is returned only when both operands are Integer; and a
value is returned whenever the acquisitions of the call succeed and the
context traps no condition. -/
theorem C2_ladder_monotonicity_decimal_at_real (E : Env) (x y : PyObject)
    (context : Option CTXT_Object)
    (hx : (classify E.W x).1 ≠ Kind.Unknown) (hy : (classify E.W y).1 ≠ Kind.Unknown) :
    (rung x = (if IS_DECIMAL x then Kind.Real else (classify E.W x).1) ∧
      rung y = (if IS_DECIMAL y then Kind.Real else (classify E.W y).1)) ∧
    (∀ v, (GMPy_Number_Add E x y context).ret = .value v →
      some (kind_of_value v) = common_kind (rung x) (rung y)) ∧
    (IS_DECIMAL x = false → IS_DECIMAL y = false →
      ∀ v, (GMPy_Number_Add E x y context).ret = .value v →
        some (kind_of_value v) = common_kind (classify E.W x).1 (classify E.W y).1) ∧
    (∀ v, (GMPy_Number_Add E x y context).ret = .value v → kind_of_value v = .Integer →
      (classify E.W x).1 = .Integer ∧ (classify E.W y).1 = .Integer) ∧
    (E.result_ok = true → E.tempx_ok = true → E.tempy_ok = true →
      (context.getD E.active).traps = Flags.none →
      ∃ v, (GMPy_Number_Add E x y context).ret = .value v) := by
  have hrx : rung x ≠ Kind.Unknown := fun h => hx ((classify_unknown_iff E.W x).2 h)
  have hry : rung y ≠ Kind.Unknown := fun h => hy ((classify_unknown_iff E.W y).2 h)
  obtain ⟨h1, h2, h3⟩ := Number_Add_kind_from_rung E x y context hrx hry
  have ex := rung_eq_classify E.W x
  have ey := rung_eq_classify E.W y
  refine ⟨⟨ex, ey⟩, h1, fun dx dy v hv => ?_, fun v hv hk => ?_, h3⟩
  · have := h1 v hv
    rw [ex, ey, dx, dy] at this
    simpa using this
  · obtain ⟨rx, ry⟩ := h2 v hv hk
    have dx := not_decimal_of_rung_Integer x rx
    have dy := not_decimal_of_rung_Integer y ry
    rw [ex, dx] at rx
    rw [ey, dy] at ry
    exact ⟨by simpa using rx, by simpa using ry⟩

/-- C2 at a host decimal and an owned rational, and at the operands of
scenario 6 (an owned complex and an owned real). -/
theorem C2_ladder_monotonicity_decimal_at_real_witness :
    ((classify sample_env.W (.decimal 7)).1 ≠ Kind.Unknown ∧
      (classify sample_env.W (.mpq 7)).1 ≠ Kind.Unknown ∧
      rung (.decimal 7) = Kind.Real ∧ rung (.mpq 7) = Kind.Rational ∧
      ∀ v, (GMPy_Number_Add sample_env (.decimal 7) (.mpq 7) none).ret = .value v →
        some (kind_of_value v) = common_kind (rung (.decimal 7)) (rung (.mpq 7))) ∧
    ((classify sample_env.W (.mpc ⟨⟨53, 1, 1⟩, ⟨53, 2, 1⟩⟩ 0)).1 ≠ Kind.Unknown ∧
      (classify sample_env.W (.mpfr ⟨53, 2, 3⟩ 0)).1 ≠ Kind.Unknown ∧
      IS_DECIMAL (.mpc ⟨⟨53, 1, 1⟩, ⟨53, 2, 1⟩⟩ 0) = false ∧
      IS_DECIMAL (.mpfr ⟨53, 2, 3⟩ 0) = false ∧
      ∀ v, (GMPy_Number_Add sample_env (.mpc ⟨⟨53, 1, 1⟩, ⟨53, 2, 1⟩⟩ 0)
          (.mpfr ⟨53, 2, 3⟩ 0) none).ret = .value v →
        some (kind_of_value v) =
          common_kind (classify sample_env.W (.mpc ⟨⟨53, 1, 1⟩, ⟨53, 2, 1⟩⟩ 0)).1
            (classify sample_env.W (.mpfr ⟨53, 2, 3⟩ 0)).1) :=
  ⟨⟨by decide, by decide, rfl, rfl,
     (C2_ladder_monotonicity_decimal_at_real sample_env (.decimal 7) (.mpq 7) none
       (by decide) (by decide)).2.1⟩,
   ⟨by decide, by decide, rfl, rfl,
     (C2_ladder_monotonicity_decimal_at_real sample_env (.mpc ⟨⟨53, 1, 1⟩, ⟨53, 2, 1⟩⟩ 0)
       (.mpfr ⟨53, 2, 3⟩ 0) none (by decide) (by decide)).2.2.1 rfl rfl⟩⟩

/-- C2 fails at a host decimal: the classifier gives a host decimal and an
owned rational the kind Rational, so their common kind is Rational, while
`GMPy_Number_Add` enters the Real rung and returns an owned real. -/
theorem C2_decimal_pair_returns_real :
    (classify sample_env.W (.decimal 7)).1 ≠ Kind.Unknown ∧
    (classify sample_env.W (.mpq 7)).1 ≠ Kind.Unknown ∧
    common_kind (classify sample_env.W (.decimal 7)).1 (classify sample_env.W (.mpq 7)).1 =
      some Kind.Rational ∧
    (GMPy_Number_Add sample_env (.decimal 7) (.mpq 7) none).ret =
      .value (.mpfr ⟨53, 0, 0⟩ 0) ∧
    some (kind_of_value (.mpfr ⟨53, 0, 0⟩ 0)) ≠
      common_kind (classify sample_env.W (.decimal 7)).1 (classify sample_env.W (.mpq 7)).1 := by
  decide

/-- C3: `GMPy_Number_Add` fails with `TypeMismatch` exactly when at least one
operand is of Unknown kind; for two operands of known kind it never does. -/
theorem C3_type_mismatch_iff_unknown (E : Env) (x y : PyObject)
    (context : Option CTXT_Object) :
    (GMPy_Number_Add E x y context).ret = .error .TypeMismatch ↔
      ((classify E.W x).1 = Kind.Unknown ∨ (classify E.W y).1 = Kind.Unknown) := by
  rw [classify_unknown_iff, classify_unknown_iff]
  rcases ladder_profile x with
    ⟨kx, x1, x2, x3, x4⟩ | ⟨kx, x1, x2, x3, x4⟩ | ⟨kx, x1, x2, x3, x4⟩ | ⟨kx, x1, x2, x3, x4⟩ |
    ⟨kx, x1, x2, x3, x4⟩ <;>
  rcases ladder_profile y with
    ⟨ky, y1, y2, y3, y4⟩ | ⟨ky, y1, y2, y3, y4⟩ | ⟨ky, y1, y2, y3, y4⟩ | ⟨ky, y1, y2, y3, y4⟩ |
    ⟨ky, y1, y2, y3, y4⟩ <;>
  simp only [GMPy_Number_Add, x1, x2, x3, x4, y1, y2, y3, y4, kx, ky, Bool.and_self,
    Bool.and_false, Bool.false_and, Bool.and_true, if_true, if_false, or_self, or_true, true_or,
    iff_true, reduceCtorEq, iff_false, Bool.false_eq_true] <;>
  first
    | exact Integer_Add_not_TypeMismatch E x y context
    | exact Rational_Add_not_TypeMismatch E x y context
    | exact Real_Add_not_TypeMismatch E x y context
    | exact Complex_Add_not_TypeMismatch E x y context

/-- C4: when the result wrapper can be allocated, each kind-specific entry
returns the `NotImplemented` sentinel exactly when at least one operand lies
outside the admissible domain of its kind; so no arm of an entry accepts an
operand its generic admissibility test rejects. -/
theorem C4_unsupported_iff_inadmissible (E : Env) (x y : PyObject)
    (context : Option CTXT_Object) (hr : E.result_ok = true) :
    ((GMPy_Integer_Add E x y context).ret = .NotImplemented ↔
      ¬ (IS_INTEGER x = true ∧ IS_INTEGER y = true)) ∧
    ((GMPy_Rational_Add E x y context).ret = .NotImplemented ↔
      ¬ (IS_RATIONAL x = true ∧ IS_RATIONAL y = true)) ∧
    ((GMPy_Real_Add E x y context).ret = .NotImplemented ↔
      ¬ (IS_REAL x = true ∧ IS_REAL y = true)) ∧
    ((GMPy_Complex_Add E x y context).ret = .NotImplemented ↔
      ¬ (IS_COMPLEX x = true ∧ IS_COMPLEX y = true)) := by
  refine ⟨?_, ?_, ?_, ?_⟩
  · rw [Integer_Add_notimpl_iff]; simp [hr]
  · rw [Rational_Add_notimpl_iff]; simp [hr]
  · rw [Real_Add_notimpl_iff]; simp [hr]
  · rw [Complex_Add_notimpl_iff]; simp [hr]

/-- C4 at an owned real and a string. -/
theorem C4_unsupported_iff_inadmissible_witness :
    sample_env.result_ok = true ∧
    (((GMPy_Integer_Add sample_env (.mpfr ⟨53, 1, 1⟩ 0) (.str "hi") none).ret = .NotImplemented ↔
      ¬ (IS_INTEGER (.mpfr ⟨53, 1, 1⟩ 0) = true ∧ IS_INTEGER (.str "hi") = true)) ∧
    ((GMPy_Rational_Add sample_env (.mpfr ⟨53, 1, 1⟩ 0) (.str "hi") none).ret =
        .NotImplemented ↔
      ¬ (IS_RATIONAL (.mpfr ⟨53, 1, 1⟩ 0) = true ∧ IS_RATIONAL (.str "hi") = true)) ∧
    ((GMPy_Real_Add sample_env (.mpfr ⟨53, 1, 1⟩ 0) (.str "hi") none).ret = .NotImplemented ↔
      ¬ (IS_REAL (.mpfr ⟨53, 1, 1⟩ 0) = true ∧ IS_REAL (.str "hi") = true)) ∧
    ((GMPy_Complex_Add sample_env (.mpfr ⟨53, 1, 1⟩ 0) (.str "hi") none).ret =
        .NotImplemented ↔
      ¬ (IS_COMPLEX (.mpfr ⟨53, 1, 1⟩ 0) = true ∧ IS_COMPLEX (.str "hi") = true))) :=
  ⟨rfl, C4_unsupported_iff_inadmissible sample_env (.mpfr ⟨53, 1, 1⟩ 0) (.str "hi") none rfl⟩

/-- The rung `GMPy_Number_Add` selects never hands the sentinel back. -/
theorem Number_Add_not_NotImplemented (E : Env) (x y : PyObject)
    (context : Option CTXT_Object) :
    (GMPy_Number_Add E x y context).ret ≠ .NotImplemented := by
  unfold GMPy_Number_Add
  split_ifs with h1 h2 h3 h4
  · rw [Ne, Integer_Add_notimpl_iff]; simp_all
  · rw [Ne, Rational_Add_notimpl_iff]; simp_all
  · rw [Ne, Real_Add_notimpl_iff]; simp_all
  · rw [Ne, Complex_Add_notimpl_iff]; simp_all
  · simp

/-- C5: the function forms never surface the `NotImplemented` sentinel:
neither `GMPy_Number_Add` nor `GMPy_Context_Add` returns it, for any operands,
context and environment, because the entry `GMPy_Number_Add` selects admits
both operands. -/
theorem C5_sentinel_never_surfaced (E : Env) (x y : PyObject)
    (context self : Option CTXT_Object) (args : List PyObject) :
    (GMPy_Number_Add E x y context).ret ≠ .NotImplemented ∧
    (GMPy_Context_Add E self args).ret ≠ .NotImplemented := by
  refine ⟨Number_Add_not_NotImplemented E x y context, ?_⟩
  unfold GMPy_Context_Add
  split
  · split
    · split_ifs
      · simp
      · exact Number_Add_not_NotImplemented _ _ _ _
      · exact Number_Add_not_NotImplemented _ _ _ _
    · exact Number_Add_not_NotImplemented _ _ _ _
  · simp



/-! ## The context argument -/

theorem Integer_Add_x_owned_ctx (E : Env) (x y : PyObject) (c : Option CTXT_Object) :
    Integer_Add_x_owned E x y c =
      (Integer_Add_x_owned E x y none).map (fun r => { r with ctx := c }) := by
  simp only [Integer_Add_x_owned]
  split_ifs <;> rfl

theorem Integer_Add_y_owned_ctx (E : Env) (x y : PyObject) (c : Option CTXT_Object) :
    Integer_Add_y_owned E x y c =
      (Integer_Add_y_owned E x y none).map (fun r => { r with ctx := c }) := by
  simp only [Integer_Add_y_owned]
  split_ifs <;> rfl

theorem Integer_Add_generic_ctx (E : Env) (x y : PyObject) (c : Option CTXT_Object) :
    Integer_Add_generic E x y c =
      (Integer_Add_generic E x y none).map (fun r => { r with ctx := c }) := by
  unfold Integer_Add_generic
  split_ifs
  · cases GMPy_MPZ_From_Integer_Temp E.tempx_ok x <;>
      cases GMPy_MPZ_From_Integer_Temp E.tempy_ok y <;> rfl
  · rfl

/-- The Integer entry only passes its context argument through. -/
theorem Integer_Add_ctx (E : Env) (x y : PyObject) (c : Option CTXT_Object) :
    GMPy_Integer_Add E x y c = { GMPy_Integer_Add E x y none with ctx := c } := by
  unfold GMPy_Integer_Add
  rw [Integer_Add_x_owned_ctx E x y c, Integer_Add_y_owned_ctx E x y c,
    Integer_Add_generic_ctx E x y c]
  cases E.result_ok <;>
    cases Integer_Add_x_owned E x y none <;>
    cases Integer_Add_y_owned E x y none <;>
    cases Integer_Add_generic E x y none <;> rfl

/-- The Rational entry only passes its context argument through. -/
theorem Rational_Add_ctx (E : Env) (x y : PyObject) (c : Option CTXT_Object) :
    GMPy_Rational_Add E x y c = { GMPy_Rational_Add E x y none with ctx := c } := by
  unfold GMPy_Rational_Add
  split_ifs
  · rfl
  · rfl
  · cases GMPy_MPQ_From_Number_Temp E.tempx_ok x <;>
      cases GMPy_MPQ_From_Number_Temp E.tempy_ok y <;> rfl
  · rfl

/-- A `NULL` context stands for the active context in the Real entry. -/
theorem Real_Add_active (E : Env) (x y : PyObject) :
    GMPy_Real_Add E x y (some E.active) = GMPy_Real_Add E x y none := rfl

/-- A `NULL` context stands for the active context in the Complex entry. -/
theorem Complex_Add_active (E : Env) (x y : PyObject) :
    GMPy_Complex_Add E x y (some E.active) = GMPy_Complex_Add E x y none := rfl

/-- The value returned by `GMPy_Number_Add` under a `NULL` context is the one
returned under the active context. -/
theorem Number_Add_active (E : Env) (x y : PyObject) :
    (GMPy_Number_Add E x y (some E.active)).ret = (GMPy_Number_Add E x y none).ret := by
  unfold GMPy_Number_Add
  split_ifs
  · rw [Integer_Add_ctx]
  · rw [Rational_Add_ctx]
  · rfl
  · rfl
  · rfl


theorem degrade_of_ne (r : PyResult) (h : r ≠ .error .TypeMismatch) : degrade r = r := by
  unfold degrade
  split
  · exact absurd rfl h
  · rfl

theorem not_integer_of_MPQ_Check (x : PyObject) (h : MPQ_Check x = true) :
    IS_INTEGER x = false := by
  cases x <;> simp_all [MPQ_Check, IS_INTEGER]

theorem not_rational_of_MPFR_Check (x : PyObject) (h : MPFR_Check x = true) :
    IS_INTEGER x = false ∧ IS_RATIONAL x = false := by
  cases x <;> simp_all [MPFR_Check, IS_INTEGER, IS_RATIONAL]

theorem not_real_of_MPC_Check (x : PyObject) (h : MPC_Check x = true) :
    IS_INTEGER x = false ∧ IS_RATIONAL x = false ∧ IS_REAL x = false := by
  cases x <;>
    simp_all [MPC_Check, IS_INTEGER, IS_RATIONAL, IS_REAL, MPFR_Check, PyFloat_Check, IS_DECIMAL]

theorem Complex_Add_alloc_failure (E : Env) (x y : PyObject) (context : Option CTXT_Object)
    (hr : E.result_ok = false) :
    (GMPy_Complex_Add E x y context).ret = .error .AllocationFailure := by
  simp [GMPy_Complex_Add, hr]

/-! ## The operator and context forms -/

/-- C6, as the code has it: the operator form mirrors `add`.  For
`GMPy_mpz_add_fast` (on every pair), `GMPy_mpq_add_fast` and
`GMPy_mpfr_add_fast`, on operand pairs in which at least one operand is an
owned value of the entry's kind, the value returned is the one returned by
`GMPy_Number_Add` under the active context, with `TypeMismatch` replaced by the
`NotImplemented` sentinel.  For `GMPy_mpc_add_fast`, which allocates the result
wrapper before testing the operands, this is the outcome whenever that
allocation succeeds; otherwise the allocation failure is returned, also where
`GMPy_Number_Add` raises `TypeMismatch`. -/
theorem C6_operator_mirrors_add (E : Env) :
    (∀ x y, (GMPy_mpz_add_fast E x y).ret =
      degrade (GMPy_Number_Add E x y (some E.active)).ret) ∧
    (∀ x y, MPQ_Check x = true ∨ MPQ_Check y = true →
      (GMPy_mpq_add_fast E x y).ret = degrade (GMPy_Number_Add E x y (some E.active)).ret) ∧
    (∀ x y, MPFR_Check x = true ∨ MPFR_Check y = true →
      (GMPy_mpfr_add_fast E x y).ret = degrade (GMPy_Number_Add E x y (some E.active)).ret) ∧
    (∀ x y, MPC_Check x = true ∨ MPC_Check y = true →
      (GMPy_mpc_add_fast E x y).ret =
        if E.result_ok then degrade (GMPy_Number_Add E x y (some E.active)).ret
        else .error .AllocationFailure) := by
  refine ⟨fun x y => ?_, fun x y h => ?_, fun x y h => ?_, fun x y h => ?_⟩
  · rw [Number_Add_active]
    unfold GMPy_mpz_add_fast GMPy_Number_Add
    split_ifs
    · exact (degrade_of_ne _ (Integer_Add_not_TypeMismatch E x y none)).symm
    · exact (degrade_of_ne _ (Rational_Add_not_TypeMismatch E x y none)).symm
    · exact (degrade_of_ne _ (Real_Add_not_TypeMismatch E x y none)).symm
    · exact (degrade_of_ne _ (Complex_Add_not_TypeMismatch E x y none)).symm
    · rfl
  · have hi : (IS_INTEGER x && IS_INTEGER y) = false := by
      rcases h with h | h <;> simp [not_integer_of_MPQ_Check _ h]
    rw [Number_Add_active]
    unfold GMPy_mpq_add_fast GMPy_Number_Add
    rw [hi]
    simp only [Bool.false_eq_true, if_false]
    split_ifs
    · exact (degrade_of_ne _ (Rational_Add_not_TypeMismatch E x y none)).symm
    · exact (degrade_of_ne _ (Real_Add_not_TypeMismatch E x y none)).symm
    · exact (degrade_of_ne _ (Complex_Add_not_TypeMismatch E x y none)).symm
    · rfl
  · have hi : (IS_INTEGER x && IS_INTEGER y) = false ∧
        (IS_RATIONAL x && IS_RATIONAL y) = false := by
      rcases h with h | h <;> simp [not_rational_of_MPFR_Check _ h]
    rw [Number_Add_active]
    unfold GMPy_mpfr_add_fast GMPy_Number_Add
    rw [hi.1, hi.2]
    simp only [Bool.false_eq_true, if_false]
    split_ifs
    · exact (degrade_of_ne _ (Real_Add_not_TypeMismatch E x y none)).symm
    · exact (degrade_of_ne _ (Complex_Add_not_TypeMismatch E x y none)).symm
    · rfl
  · have hi : (IS_INTEGER x && IS_INTEGER y) = false ∧
        (IS_RATIONAL x && IS_RATIONAL y) = false ∧ (IS_REAL x && IS_REAL y) = false := by
      rcases h with h | h <;> simp [not_real_of_MPC_Check _ h]
    rw [Number_Add_active]
    unfold GMPy_mpc_add_fast GMPy_Number_Add
    rw [hi.1, hi.2.1, hi.2.2]
    simp only [Bool.false_eq_true, if_false]
    cases hr : E.result_ok
    · simp [Complex_Add_alloc_failure E x y none hr]
    · simp only [if_true]
      split_ifs with hc
      · exact (degrade_of_ne _ (Complex_Add_not_TypeMismatch E x y none)).symm
      · have := (Complex_Add_notimpl_iff E x y none).2 ⟨hr, by simpa using hc⟩
        rw [this]; rfl

/-- C6 fails for `GMPy_mpc_add_fast` when the result wrapper cannot be
allocated: on an owned complex and a string `GMPy_Number_Add` raises
`TypeMismatch` without allocating, so the operator should hand the sentinel
back, but `GMPy_Complex_Add` allocates first (line 423) and the operator
returns the allocation failure. -/
theorem C6_mpc_operator_allocates_first :
    MPC_Check (.mpc ⟨⟨53, 1, 1⟩, ⟨53, 2, 1⟩⟩ 0) = true ∧
    (GMPy_Number_Add exhausted_env (.mpc ⟨⟨53, 1, 1⟩, ⟨53, 2, 1⟩⟩ 0) (.str "hi")
      (some exhausted_env.active)).ret = .error .TypeMismatch ∧
    (GMPy_mpc_add_fast exhausted_env (.mpc ⟨⟨53, 1, 1⟩, ⟨53, 2, 1⟩⟩ 0) (.str "hi")).ret =
      .error .AllocationFailure ∧
    (GMPy_mpc_add_fast exhausted_env (.mpc ⟨⟨53, 1, 1⟩, ⟨53, 2, 1⟩⟩ 0) (.str "hi")).ret ≠
      degrade (GMPy_Number_Add exhausted_env (.mpc ⟨⟨53, 1, 1⟩, ⟨53, 2, 1⟩⟩ 0) (.str "hi")
        (some exhausted_env.active)).ret := by
  decide

/-- C6 at an owned value of each kind with a string and with a host integer. -/
theorem C6_operator_mirrors_add_witness :
    (GMPy_mpz_add_fast sample_env (.mpz 1) (.str "hi")).ret =
      degrade (GMPy_Number_Add sample_env (.mpz 1) (.str "hi") (some sample_env.active)).ret ∧
    (MPQ_Check (.mpq 1) = true ∨ MPQ_Check (.pylong 2) = true) ∧
    (GMPy_mpq_add_fast sample_env (.mpq 1) (.pylong 2)).ret =
      degrade (GMPy_Number_Add sample_env (.mpq 1) (.pylong 2) (some sample_env.active)).ret ∧
    (MPFR_Check (.str "hi") = true ∨ MPFR_Check (.mpfr ⟨53, 1, 1⟩ 0) = true) ∧
    (GMPy_mpfr_add_fast sample_env (.str "hi") (.mpfr ⟨53, 1, 1⟩ 0)).ret =
      degrade (GMPy_Number_Add sample_env (.str "hi") (.mpfr ⟨53, 1, 1⟩ 0)
        (some sample_env.active)).ret ∧
    (MPC_Check (.mpc ⟨⟨53, 1, 1⟩, ⟨53, 2, 1⟩⟩ 0) = true ∨ MPC_Check (.str "hi") = true) ∧
    (GMPy_mpc_add_fast sample_env (.mpc ⟨⟨53, 1, 1⟩, ⟨53, 2, 1⟩⟩ 0) (.str "hi")).ret =
      (if sample_env.result_ok then
        degrade (GMPy_Number_Add sample_env (.mpc ⟨⟨53, 1, 1⟩, ⟨53, 2, 1⟩⟩ 0) (.str "hi")
          (some sample_env.active)).ret
       else .error .AllocationFailure) :=
  ⟨(C6_operator_mirrors_add sample_env).1 _ _,
   Or.inl rfl, (C6_operator_mirrors_add sample_env).2.1 _ _ (Or.inl rfl),
   Or.inr rfl, (C6_operator_mirrors_add sample_env).2.2.1 _ _ (Or.inr rfl),
   Or.inl rfl, (C6_operator_mirrors_add sample_env).2.2.2 _ _ (Or.inl rfl)⟩


theorem Number_Add_not_ArityError (E : Env) (x y : PyObject) (context : Option CTXT_Object) :
    (GMPy_Number_Add E x y context).ret ≠ .error .ArityError := by
  unfold GMPy_Number_Add
  split_ifs
  · rcases Integer_Add_ret_cases E x y context with
      ⟨h0, h1⟩ | ⟨h0, hx, hy, ⟨z, h1⟩ | ⟨h1, _⟩⟩ | ⟨h0, hn, h1⟩ <;> simp [h1]
  · rcases Rational_Add_ret_cases E x y context with
      ⟨h0, h1⟩ | ⟨h0, hx, hy, ⟨z, h1⟩ | ⟨h1, _⟩⟩ | ⟨h0, hn, h1⟩ <;> simp [h1]
  · rcases Real_Add_ret_cases E x y context with
      ⟨h0, h1⟩ | ⟨h0, hx, hy, ⟨f, rc, h1⟩ | ⟨h1, _⟩ | ⟨s, h1, _⟩⟩ | ⟨h0, hn, h1⟩ <;> simp [h1]
  · rcases Complex_Add_ret_cases E x y context with
      ⟨h0, h1⟩ | ⟨h0, hx, hy, ⟨f, rc, h1⟩ | ⟨h1, _⟩ | ⟨s, h1, _⟩⟩ | ⟨h0, hn, h1⟩ <;> simp [h1]
  · simp

/-- C7: `GMPy_Context_Add` fails with `ArityError` exactly when the number of
arguments is not 2.  On that failure nothing has been done: no context is
copied or acquired and no event is performed.  With exactly two arguments the
value returned is that of `GMPy_Number_Add` on the two arguments in their
order, run against the active context, against `self`, or against the copy of
a read-only `self` (whose failed allocation is the only other outcome). -/
theorem C7_context_add_arity (E : Env) (self : Option CTXT_Object) (args : List PyObject) :
    ((GMPy_Context_Add E self args).ret = .error .ArityError ↔ args.length ≠ 2) ∧
    (args.length ≠ 2 →
      (GMPy_Context_Add E self args).trace = [] ∧
      (GMPy_Context_Add E self args).working = none ∧
      (GMPy_Context_Add E self args).self_after = self) ∧
    (∀ x y, args = [x, y] →
      (self = none →
        (GMPy_Context_Add E self args).ret = (GMPy_Number_Add E x y (some E.active)).ret) ∧
      (∀ c, self = some c → c.readonly = false →
        (GMPy_Context_Add E self args).ret = (GMPy_Number_Add E x y (some c)).ret) ∧
      (∀ c, self = some c → c.readonly = true →
        (GMPy_Context_Add E self args).ret =
          if E.copy_ok then (GMPy_Number_Add E x y (some (GMPy_CTXT_Copy c))).ret
          else .error .AllocationFailure)) := by
  have two : ∀ x y, (GMPy_Context_Add E self [x, y]).ret ≠ .error .ArityError := by
    intro x y
    unfold GMPy_Context_Add
    simp only
    split
    · split_ifs
      · simp
      · exact Number_Add_not_ArityError _ _ _ _
      · exact Number_Add_not_ArityError _ _ _ _
    · exact Number_Add_not_ArityError _ _ _ _
  have other : args.length ≠ 2 → GMPy_Context_Add E self args = ⟨.error .ArityError, self, none, []⟩ := by
    intro h
    unfold GMPy_Context_Add
    split
    · simp at h
    · rfl
  refine ⟨⟨fun h hl => ?_, fun h => by rw [other h]⟩, fun h => by rw [other h]; exact ⟨rfl, rfl, rfl⟩,
    fun x y ha => ⟨fun hs => ?_, fun c hs hro => ?_, fun c hs hro => ?_⟩⟩
  · match args, hl with
    | [x, y], _ => exact two x y h
  · subst ha; subst hs; rfl
  · subst ha; subst hs
    simp [GMPy_Context_Add, hro]
  · subst ha; subst hs
    cases hc : E.copy_ok <;> simp [GMPy_Context_Add, hro, hc]

/-- C7 at one argument, and at two arguments under the active context, under a
mutable context and under a read-only context. -/
theorem C7_context_add_arity_witness :
    ([PyObject.mpz 1].length ≠ 2 ∧
      (GMPy_Context_Add sample_env (some sample_ctx) [.mpz 1]).trace = [] ∧
      (GMPy_Context_Add sample_env (some sample_ctx) [.mpz 1]).working = none ∧
      (GMPy_Context_Add sample_env (some sample_ctx) [.mpz 1]).self_after = some sample_ctx) ∧
    (GMPy_Context_Add sample_env none [.str "hi", .mpz 1]).ret =
      (GMPy_Number_Add sample_env (.str "hi") (.mpz 1) (some sample_env.active)).ret ∧
    (GMPy_Context_Add sample_env (some sample_ctx) [.str "hi", .mpz 1]).ret =
      (GMPy_Number_Add sample_env (.str "hi") (.mpz 1) (some sample_ctx)).ret ∧
    (GMPy_Context_Add sample_env (some sample_readonly_ctx) [.mpz 2, .mpz 1]).ret =
      (if sample_env.copy_ok then
        (GMPy_Number_Add sample_env (.mpz 2) (.mpz 1)
          (some (GMPy_CTXT_Copy sample_readonly_ctx))).ret
       else .error .AllocationFailure) :=
  ⟨⟨by decide,
     (C7_context_add_arity sample_env (some sample_ctx) [.mpz 1]).2.1 (by decide)⟩,
   ((C7_context_add_arity sample_env none [.str "hi", .mpz 1]).2.2 _ _ rfl).1 rfl,
   ((C7_context_add_arity sample_env (some sample_ctx) [.str "hi", .mpz 1]).2.2 _ _ rfl).2.1
     _ rfl rfl,
   ((C7_context_add_arity sample_env (some sample_readonly_ctx)
     [.mpz 2, .mpz 1]).2.2 _ _ rfl).2.2 _ rfl rfl⟩


/-! ## Exact values of the Integer and Rational entries -/

/-- The value returned by the Integer entry on an admissible pair. -/
theorem Integer_Add_ret_eq (E : Env) (x y : PyObject) (context : Option CTXT_Object)
    (hx : IS_INTEGER x = true) (hy : IS_INTEGER y = true) :
    (GMPy_Integer_Add E x y context).ret =
      if E.result_ok then
        (if Integer_fast_path x y || (E.tempx_ok && E.tempy_ok) then
          .value (.mpz (int_value x + int_value y))
         else .error .HostConversionFailure)
      else .error .AllocationFailure := by
  cases hr : E.result_ok
  · simp [GMPy_Integer_Add, hr]
  · cases x <;> simp [IS_INTEGER] at hx <;> cases y <;> simp [IS_INTEGER] at hy
    case pylong.mpz n a =>
      obtain ⟨t, ht⟩ := Integer_Add_y_owned_pylong E context a n
      simp [GMPy_Integer_Add, hr, ht, Integer_Add_x_owned, CHECK_MPZANY, Integer_fast_path,
        PyIntOrLong_Check, int_value, add_comm]
    case mpz.pylong a n =>
      obtain ⟨t, ht⟩ := Integer_Add_x_owned_pylong E context a n
      simp [GMPy_Integer_Add, hr, ht, Integer_fast_path, CHECK_MPZANY, PyIntOrLong_Check,
        int_value]
    all_goals
      cases htx : E.tempx_ok <;> cases hty : E.tempy_ok <;>
        simp [GMPy_Integer_Add, hr, htx, hty, Integer_Add_x_owned, Integer_Add_y_owned,
          Integer_Add_generic, CHECK_MPZANY, PyIntOrLong_Check, IS_INTEGER,
          GMPy_MPZ_From_Integer_Temp, Integer_fast_path, int_value, mpz_add, MPZ]

/-- The value returned by the Rational entry on an admissible pair. -/
theorem Rational_Add_ret_eq (E : Env) (x y : PyObject) (context : Option CTXT_Object)
    (hx : IS_RATIONAL x = true) (hy : IS_RATIONAL y = true) :
    (GMPy_Rational_Add E x y context).ret =
      if E.result_ok then
        (if (MPQ_Check x && MPQ_Check y) || (E.tempx_ok && E.tempy_ok) then
          .value (.mpq (rat_value x + rat_value y))
         else .error .HostConversionFailure)
      else .error .AllocationFailure := by
  cases hr : E.result_ok
  · simp [GMPy_Rational_Add, hr]
  · cases x <;> simp [IS_RATIONAL, IS_INTEGER] at hx <;>
      cases y <;> simp [IS_RATIONAL, IS_INTEGER] at hy <;>
      cases htx : E.tempx_ok <;> cases hty : E.tempy_ok <;>
        simp [GMPy_Rational_Add, hr, htx, hty, MPQ_Check, IS_RATIONAL, IS_INTEGER,
          GMPy_MPQ_From_Number_Temp, rat_value, mpq_add, MPQ]

theorem Integer_fast_path_comm (x y : PyObject) :
    Integer_fast_path x y = Integer_fast_path y x := by
  cases x <;> cases y <;> rfl

theorem IS_RATIONAL_of_IS_INTEGER (x : PyObject) (h : IS_INTEGER x = true) :
    IS_RATIONAL x = true := by
  simp [IS_RATIONAL, h]

/-- C8: commutativity on the Integer and Rational kinds.  For every pair of
operands admitted by the Rational kind (all Integer pairs included), owned or
host, in either position, `add(x, y)` and `add(y, x)` return the same result
(the same owned value of the same kind, or the same surfaced acquisition
failure); so do the Integer entry on Integer pairs and the Rational entry; and
a value is returned whenever the acquisitions of the call succeed. -/
theorem C8_commutativity (E : Env) (x y : PyObject) (context : Option CTXT_Object)
    (hx : IS_RATIONAL x = true) (hy : IS_RATIONAL y = true) :
    (GMPy_Number_Add E x y context).ret = (GMPy_Number_Add E y x context).ret ∧
    (GMPy_Rational_Add E x y context).ret = (GMPy_Rational_Add E y x context).ret ∧
    (IS_INTEGER x = true → IS_INTEGER y = true →
      (GMPy_Integer_Add E x y context).ret = (GMPy_Integer_Add E y x context).ret) ∧
    (E.result_ok = true → E.tempx_ok = true → E.tempy_ok = true →
      ∃ v, (GMPy_Number_Add E x y context).ret = .value v ∧
        (kind_of_value v = .Integer ∨ kind_of_value v = .Rational)) := by
  have hq : (GMPy_Rational_Add E x y context).ret = (GMPy_Rational_Add E y x context).ret := by
    rw [Rational_Add_ret_eq E x y context hx hy, Rational_Add_ret_eq E y x context hy hx,
      add_comm (rat_value x), Bool.and_comm (MPQ_Check x)]
  have hz : IS_INTEGER x = true → IS_INTEGER y = true →
      (GMPy_Integer_Add E x y context).ret = (GMPy_Integer_Add E y x context).ret := by
    intro hix hiy
    rw [Integer_Add_ret_eq E x y context hix hiy, Integer_Add_ret_eq E y x context hiy hix,
      add_comm (int_value x), Integer_fast_path_comm x y]
  refine ⟨?_, hq, hz, fun hr htx hty => ?_⟩
  · unfold GMPy_Number_Add
    rw [Bool.and_comm (IS_INTEGER y), Bool.and_comm (IS_RATIONAL y)]
    by_cases hi : (IS_INTEGER x && IS_INTEGER y) = true
    · rw [if_pos hi, if_pos hi]
      simp only [Bool.and_eq_true] at hi
      exact hz hi.1 hi.2
    · rw [if_neg hi, if_neg hi]
      simp only [hx, hy, Bool.and_self, if_true]
      exact hq
  · unfold GMPy_Number_Add
    by_cases hi : (IS_INTEGER x && IS_INTEGER y) = true
    · rw [if_pos hi]
      simp only [Bool.and_eq_true] at hi
      obtain ⟨z, h⟩ := Integer_Add_succeeds E x y context hr htx hty hi.1 hi.2
      exact ⟨_, h, Or.inl rfl⟩
    · rw [if_neg hi]
      simp only [hx, hy, Bool.and_self, if_true]
      obtain ⟨q, h⟩ := Rational_Add_succeeds E x y context hr htx hty hx hy
      exact ⟨_, h, Or.inr rfl⟩


theorem Integer_fast_path_iff (E : Env) (x y : PyObject) (context : Option CTXT_Object) :
    ((Integer_Add_x_owned E x y context).isSome = true ∨
      (Integer_Add_y_owned E x y context).isSome = true) ↔ Integer_fast_path x y = true := by
  constructor
  · rintro (h | h)
    · cases x <;> simp [Integer_Add_x_owned, CHECK_MPZANY] at h
      cases y <;> simp [PyIntOrLong_Check, CHECK_MPZANY] at h <;>
        simp [Integer_fast_path, CHECK_MPZANY, PyIntOrLong_Check]
    · cases y <;> simp [Integer_Add_y_owned, CHECK_MPZANY] at h
      cases x <;> simp [PyIntOrLong_Check, CHECK_MPZANY] at h
      simp [Integer_fast_path, CHECK_MPZANY, PyIntOrLong_Check]
  · intro h
    rcases Integer_Add_x_owned_spec E x y context with ⟨_, _, z, t, h1⟩ | h1
    · left; rw [h1]; rfl
    · right
      cases x <;> cases y <;> simp [Integer_fast_path, CHECK_MPZANY, PyIntOrLong_Check] at h
      case pylong.mpz n a =>
        obtain ⟨t, ht⟩ := Integer_Add_y_owned_pylong E context a n
        rw [ht]; rfl
      case mpz.pylong a n =>
        obtain ⟨t, ht⟩ := Integer_Add_x_owned_pylong E context a n
        rw [ht] at h1; cases h1
      case mpz.mpz a b =>
        simp [Integer_Add_x_owned, CHECK_MPZANY, PyIntOrLong_Check] at h1

theorem IS_INTEGER_of_fast_path (x y : PyObject) (h : Integer_fast_path x y = true) :
    IS_INTEGER x = true ∧ IS_INTEGER y = true := by
  cases x <;> cases y <;>
    simp [Integer_fast_path, CHECK_MPZANY, PyIntOrLong_Check] at h <;> exact ⟨rfl, rfl⟩

theorem Integer_Temp_value (x : PyObject) (h : IS_INTEGER x = true) :
    GMPy_MPZ_From_Integer_Temp true x = some (int_value x) := by
  cases x <;> simp [IS_INTEGER] at h <;> rfl

/-- C9: fast-path equivalence for the Integer kind.  On every operand pair for
which `GMPy_Integer_Add` takes a specialized arm (lines 69-110: `mpz_add_ui`,
`mpz_sub_ui` of the negated word, import then `mpz_add`, or `mpz_add` of two
owned integers) and the result wrapper is allocated, both operands coerce to
owned integer temporaries and the value returned is `mpz_add` of the two
temporaries, which is what the generic arm of lines 112-128 returns on the
pair. -/
theorem C9_fast_path_equivalence (E : Env) (x y : PyObject) (context : Option CTXT_Object)
    (hsel : (Integer_Add_x_owned E x y context).isSome = true ∨
      (Integer_Add_y_owned E x y context).isSome = true)
    (hr : E.result_ok = true) :
    ∃ tempx tempy,
      GMPy_MPZ_From_Integer_Temp true x = some tempx ∧
      GMPy_MPZ_From_Integer_Temp true y = some tempy ∧
      (GMPy_Integer_Add E x y context).ret = .value (.mpz (mpz_add tempx tempy)) ∧
      (E.tempx_ok = true → E.tempy_ok = true →
        ∃ g, Integer_Add_generic E x y context = some g ∧
          g.ret = (GMPy_Integer_Add E x y context).ret) := by
  have hf := (Integer_fast_path_iff E x y context).1 hsel
  obtain ⟨hx, hy⟩ := IS_INTEGER_of_fast_path x y hf
  have hret := Integer_Add_ret_eq E x y context hx hy
  rw [hr, hf] at hret
  simp only [Bool.true_or, if_true] at hret
  refine ⟨int_value x, int_value y, Integer_Temp_value x hx, Integer_Temp_value y hy, hret,
    fun htx hty => ?_⟩
  rw [hret]
  simp only [Integer_Add_generic, hx, hy, htx, hty, Integer_Temp_value x hx,
    Integer_Temp_value y hy, Bool.and_self, if_true]
  exact ⟨_, rfl, rfl⟩

/-- C9 at the operands of scenario 2: the owned integer `2^70` and the host
integer `-3`, which takes the `mpz_sub_ui` arm. -/
theorem C9_fast_path_equivalence_witness :
    ((Integer_Add_x_owned sample_env (.mpz (2 ^ 70)) (.pylong (-3)) none).isSome = true ∨
      (Integer_Add_y_owned sample_env (.mpz (2 ^ 70)) (.pylong (-3)) none).isSome = true) ∧
    sample_env.result_ok = true ∧
    ∃ tempx tempy,
      GMPy_MPZ_From_Integer_Temp true (.mpz (2 ^ 70)) = some tempx ∧
      GMPy_MPZ_From_Integer_Temp true (.pylong (-3)) = some tempy ∧
      (GMPy_Integer_Add sample_env (.mpz (2 ^ 70)) (.pylong (-3)) none).ret =
        .value (.mpz (mpz_add tempx tempy)) ∧
      (sample_env.tempx_ok = true → sample_env.tempy_ok = true →
        ∃ g, Integer_Add_generic sample_env (.mpz (2 ^ 70)) (.pylong (-3)) none = some g ∧
          g.ret = (GMPy_Integer_Add sample_env (.mpz (2 ^ 70)) (.pylong (-3)) none).ret) :=
  ⟨Or.inl (by decide), rfl,
    C9_fast_path_equivalence sample_env (.mpz (2 ^ 70)) (.pylong (-3)) none
      (Or.inl (by decide)) rfl⟩


/-- C8 at a host integer and an owned rational. -/
theorem C8_commutativity_witness :
    IS_RATIONAL (.pylong (-3)) = true ∧ IS_RATIONAL (.mpq 7) = true ∧
    ((GMPy_Number_Add sample_env (.pylong (-3)) (.mpq 7) none).ret =
        (GMPy_Number_Add sample_env (.mpq 7) (.pylong (-3)) none).ret ∧
     (GMPy_Rational_Add sample_env (.pylong (-3)) (.mpq 7) none).ret =
        (GMPy_Rational_Add sample_env (.mpq 7) (.pylong (-3)) none).ret ∧
     (IS_INTEGER (.pylong (-3)) = true → IS_INTEGER (.mpq 7) = true →
        (GMPy_Integer_Add sample_env (.pylong (-3)) (.mpq 7) none).ret =
          (GMPy_Integer_Add sample_env (.mpq 7) (.pylong (-3)) none).ret) ∧
     (sample_env.result_ok = true → sample_env.tempx_ok = true → sample_env.tempy_ok = true →
        ∃ v, (GMPy_Number_Add sample_env (.pylong (-3)) (.mpq 7) none).ret = .value v ∧
          (kind_of_value v = .Integer ∨ kind_of_value v = .Rational))) :=
  ⟨rfl, rfl, C8_commutativity sample_env (.pylong (-3)) (.mpq 7) none rfl rfl⟩

/-- The word passed to `mpz_sub_ui` for the host integer zero is zero. -/
theorem to_ui_neg_si_zero (W : Nat) (hW : 0 < W) : to_ui W (neg_si W 0) = 0 := by
  have hmin : SI_MIN W ≤ 0 := by
    unfold SI_MIN
    have : (0 : Int) < (2 : Int) ^ (W - 1) := by positivity
    omega
  have h := to_ui_neg_si W hW 0 (le_refl 0) hmin
  simpa using h

theorem PyLong_AsSIAndOverflow_zero (W : Nat) :
    PyLong_AsSIAndOverflow W (.pylong 0) = (0, 0) := by
  have hp : (0 : Int) < (2 : Int) ^ (W - 1) := by positivity
  have h1 : ¬ ((0 : Int) < SI_MIN W) := by unfold SI_MIN; omega
  have h2 : ¬ (SI_MAX W < (0 : Int)) := by unfold SI_MAX; omega
  simp [PyLong_AsSIAndOverflow, h1, h2]

/-- C10: identity.  For every owned integer `x` and every owned rational `x`,
`add(x, 0)` and `add(0, x)` return an owned value equal to `x`, for `0` a host
integer zero or an owned zero of the same kind, whenever the acquisitions of
the call succeed (their failure is the only other outcome).  A host zero on
the left of an owned integer takes the `mpz_sub_ui` arm with the word 0. -/
theorem C10_identity (E : Env) (context : Option CTXT_Object) (a : Int) (q : Rat) :
    (GMPy_Number_Add E (.mpz a) (.pylong 0) context).ret =
        (if E.result_ok then .value (.mpz a) else .error .AllocationFailure) ∧
    (GMPy_Number_Add E (.pylong 0) (.mpz a) context).ret =
        (if E.result_ok then .value (.mpz a) else .error .AllocationFailure) ∧
    (GMPy_Number_Add E (.mpz a) (.mpz 0) context).ret =
        (if E.result_ok then .value (.mpz a) else .error .AllocationFailure) ∧
    (GMPy_Number_Add E (.mpz 0) (.mpz a) context).ret =
        (if E.result_ok then .value (.mpz a) else .error .AllocationFailure) ∧
    (GMPy_Number_Add E (.mpq q) (.mpq 0) context).ret =
        (if E.result_ok then .value (.mpq q) else .error .AllocationFailure) ∧
    (GMPy_Number_Add E (.mpq 0) (.mpq q) context).ret =
        (if E.result_ok then .value (.mpq q) else .error .AllocationFailure) ∧
    (GMPy_Number_Add E (.mpq q) (.pylong 0) context).ret =
        (if E.result_ok then
          (if E.tempx_ok && E.tempy_ok then .value (.mpq q) else .error .HostConversionFailure)
         else .error .AllocationFailure) ∧
    (GMPy_Number_Add E (.pylong 0) (.mpq q) context).ret =
        (if E.result_ok then
          (if E.tempx_ok && E.tempy_ok then .value (.mpq q) else .error .HostConversionFailure)
         else .error .AllocationFailure) ∧
    Integer_Add_y_owned E (.pylong 0) (.mpz a) context =
        some ⟨.value (.mpz a), context, [.acquire .result, .call (.mpz_sub_ui a 0)]⟩ := by
  have hI : ∀ x y, IS_INTEGER x = true → IS_INTEGER y = true →
      (GMPy_Number_Add E x y context).ret = (GMPy_Integer_Add E x y context).ret := by
    intro x y hx hy
    simp [GMPy_Number_Add, hx, hy]
  have hQ : ∀ x y, (IS_INTEGER x && IS_INTEGER y) = false → IS_RATIONAL x = true →
      IS_RATIONAL y = true →
      (GMPy_Number_Add E x y context).ret = (GMPy_Rational_Add E x y context).ret := by
    intro x y hi hx hy
    simp [GMPy_Number_Add, hi, hx, hy]
  refine ⟨?_, ?_, ?_, ?_, ?_, ?_, ?_, ?_, ?_⟩
  · rw [hI (.mpz a) (.pylong 0) rfl rfl, Integer_Add_ret_eq E (.mpz a) (.pylong 0) context rfl rfl]
    simp [Integer_fast_path, CHECK_MPZANY, PyIntOrLong_Check, int_value]
  · rw [hI (.pylong 0) (.mpz a) rfl rfl, Integer_Add_ret_eq E (.pylong 0) (.mpz a) context rfl rfl]
    simp [Integer_fast_path, CHECK_MPZANY, PyIntOrLong_Check, int_value]
  · rw [hI (.mpz a) (.mpz 0) rfl rfl, Integer_Add_ret_eq E (.mpz a) (.mpz 0) context rfl rfl]
    simp [Integer_fast_path, CHECK_MPZANY, PyIntOrLong_Check, int_value]
  · rw [hI (.mpz 0) (.mpz a) rfl rfl, Integer_Add_ret_eq E (.mpz 0) (.mpz a) context rfl rfl]
    simp [Integer_fast_path, CHECK_MPZANY, PyIntOrLong_Check, int_value]
  · rw [hQ (.mpq q) (.mpq 0) rfl rfl rfl, Rational_Add_ret_eq E (.mpq q) (.mpq 0) context rfl rfl]
    simp [MPQ_Check, rat_value]
  · rw [hQ (.mpq 0) (.mpq q) rfl rfl rfl, Rational_Add_ret_eq E (.mpq 0) (.mpq q) context rfl rfl]
    simp [MPQ_Check, rat_value]
  · rw [hQ (.mpq q) (.pylong 0) rfl rfl rfl, Rational_Add_ret_eq E (.mpq q) (.pylong 0) context rfl rfl]
    simp [MPQ_Check, rat_value]
  · rw [hQ (.pylong 0) (.mpq q) rfl rfl rfl, Rational_Add_ret_eq E (.pylong 0) (.mpq q) context rfl rfl]
    simp [MPQ_Check, rat_value]
  · simp [Integer_Add_y_owned, CHECK_MPZANY, PyIntOrLong_Check, PyLong_AsSIAndOverflow_zero,
      to_ui_neg_si_zero E.W E.W_pos, MPZ, mpz_sub_ui]


/-! ## Resources held by a call -/

theorem held_after_append (held : List Res) (a b : List Event) :
    held_after held (a ++ b) = (held_after held a).bind (fun h => held_after h b) := by
  induction a generalizing held with
  | nil => simp [held_after]
  | cons e a ih =>
    cases e with
    | acquire r =>
      by_cases hr : r ∈ held <;> simp [held_after, hr, ih]
    | release r =>
      by_cases hr : r ∈ held <;> simp [held_after, hr, ih]
    | _ => simp [held_after, ih]

theorem Integer_Add_x_owned_tidy (E : Env) (x y : PyObject) (context : Option CTXT_Object)
    (r : Run) (h : Integer_Add_x_owned E x y context = some r) : Tidy r := by
  simp only [Integer_Add_x_owned] at h
  split_ifs at h <;> cases h <;> simp [Tidy, held_after, PyResult.isValue]

theorem Integer_Add_y_owned_tidy (E : Env) (x y : PyObject) (context : Option CTXT_Object)
    (r : Run) (h : Integer_Add_y_owned E x y context = some r) : Tidy r := by
  simp only [Integer_Add_y_owned] at h
  split_ifs at h <;> cases h <;> simp [Tidy, held_after, PyResult.isValue]

theorem Integer_Add_generic_tidy (E : Env) (x y : PyObject) (context : Option CTXT_Object)
    (r : Run) (h : Integer_Add_generic E x y context = some r) : Tidy r := by
  simp only [Integer_Add_generic] at h
  split_ifs at h
  split at h <;> cases h <;> simp [Tidy, held_after, PyResult.isValue]

theorem Integer_Add_tidy (E : Env) (x y : PyObject) (context : Option CTXT_Object) :
    Tidy (GMPy_Integer_Add E x y context) := by
  unfold GMPy_Integer_Add
  cases E.result_ok
  · simp [Tidy, held_after, PyResult.isValue]
  · simp only [Bool.not_true, Bool.false_eq_true, if_false]
    cases h1 : Integer_Add_x_owned E x y context with
    | some r => exact Integer_Add_x_owned_tidy E x y context r h1
    | none =>
      cases h2 : Integer_Add_y_owned E x y context with
      | some r => exact Integer_Add_y_owned_tidy E x y context r h2
      | none =>
        cases h3 : Integer_Add_generic E x y context with
        | some r => exact Integer_Add_generic_tidy E x y context r h3
        | none => simp [Tidy, held_after, PyResult.isValue]

theorem Rational_Add_tidy (E : Env) (x y : PyObject) (context : Option CTXT_Object) :
    Tidy (GMPy_Rational_Add E x y context) := by
  unfold GMPy_Rational_Add
  split_ifs
  · simp [Tidy, held_after, PyResult.isValue]
  · simp [Tidy, held_after, PyResult.isValue]
  · split <;> simp [Tidy, held_after, PyResult.isValue]
  · simp [Tidy, held_after, PyResult.isValue]


theorem Real_Add_both_owned_tidy (E : Env) (x y : PyObject) (context : CTXT_Object)
    (a : Arm mpfr_t) (h : Real_Add_both_owned E x y context = some a) : ArmTidy a := by
  simp only [Real_Add_both_owned] at h
  split_ifs at h; cases h; simp [ArmTidy, held_after]

theorem Real_Add_x_owned_tidy (E : Env) (x y : PyObject) (context : CTXT_Object)
    (a : Arm mpfr_t) (h : Real_Add_x_owned E x y context = some a) : ArmTidy a := by
  simp only [Real_Add_x_owned] at h
  split_ifs at h <;> (try split at h) <;> cases h <;> simp [ArmTidy, held_after]

theorem Real_Add_y_owned_tidy (E : Env) (x y : PyObject) (context : CTXT_Object)
    (a : Arm mpfr_t) (h : Real_Add_y_owned E x y context = some a) : ArmTidy a := by
  simp only [Real_Add_y_owned] at h
  split_ifs at h <;> (try split at h) <;> cases h <;> simp [ArmTidy, held_after]

theorem Real_Add_generic_tidy (E : Env) (x y : PyObject) (context : CTXT_Object)
    (a : Arm mpfr_t) (h : Real_Add_generic E x y context = some a) : ArmTidy a := by
  simp only [Real_Add_generic] at h
  split_ifs at h
  split at h <;> cases h <;> simp [ArmTidy, held_after]

theorem MPFR_CLEANUP_2_tidy (E : Env) (context : CTXT_Object) (r : Rounded mpfr_t)
    (t : List Event) (h : held_after [] t = some [.result]) :
    Tidy (MPFR_CLEANUP_2 E context r t) := by
  simp only [MPFR_CLEANUP_2]
  split_ifs <;> simp [Tidy, held_after_append, h, held_after, PyResult.isValue]

theorem entry_then_arm (emin emax : Int) (t : List Event) (held : List Res)
    (h : held_after [.result] t = some held) :
    held_after [] ([.set_exponent emin emax, .acquire .result] ++ t) = some held := by
  simp [held_after, h]

theorem Real_Add_tidy (E : Env) (x y : PyObject) (context : Option CTXT_Object) :
    Tidy (GMPy_Real_Add E x y context) := by
  have arm : ∀ a : Arm mpfr_t, ArmTidy a →
      Tidy (match some a with
        | some (.done r t) =>
          MPFR_CLEANUP_2 E (context.getD E.active) r
            ([.set_exponent (context.getD E.active).emin (context.getD E.active).emax,
              .acquire .result] ++ t)
        | some (.fail e t) =>
          ⟨.error e, some (context.getD E.active),
            [.set_exponent (context.getD E.active).emin (context.getD E.active).emax,
              .acquire .result] ++ t⟩
        | none =>
          ⟨.NotImplemented, some (context.getD E.active),
            [.set_exponent (context.getD E.active).emin (context.getD E.active).emax,
              .acquire .result] ++ [.release .result]⟩) := by
    intro a ha
    cases a with
    | done r t => exact MPFR_CLEANUP_2_tidy E _ r _ (entry_then_arm _ _ t _ ha)
    | fail e t =>
      simp only [Tidy, PyResult.isValue]
      exact entry_then_arm _ _ t _ ha
  unfold GMPy_Real_Add
  cases E.result_ok
  · simp [Tidy, held_after, PyResult.isValue]
  · simp only [Bool.not_true, Bool.false_eq_true, if_false]
    cases h0 : Real_Add_both_owned E x y (context.getD E.active) with
    | some a => exact arm a (Real_Add_both_owned_tidy E x y _ a h0)
    | none =>
      cases h1 : Real_Add_x_owned E x y (context.getD E.active) with
      | some a => exact arm a (Real_Add_x_owned_tidy E x y _ a h1)
      | none =>
        cases h2 : Real_Add_y_owned E x y (context.getD E.active) with
        | some a => exact arm a (Real_Add_y_owned_tidy E x y _ a h2)
        | none =>
          cases h3 : Real_Add_generic E x y (context.getD E.active) with
          | some a => exact arm a (Real_Add_generic_tidy E x y _ a h3)
          | none => simp [Tidy, held_after, PyResult.isValue]


theorem Complex_Add_both_owned_tidy (E : Env) (x y : PyObject) (context : CTXT_Object)
    (a : Arm mpc_t) (h : Complex_Add_both_owned E x y context = some a) : ArmTidy a := by
  simp only [Complex_Add_both_owned] at h
  split_ifs at h; cases h; simp [ArmTidy, held_after]

theorem Complex_Add_generic_tidy (E : Env) (x y : PyObject) (context : CTXT_Object)
    (a : Arm mpc_t) (h : Complex_Add_generic E x y context = some a) : ArmTidy a := by
  simp only [Complex_Add_generic] at h
  split_ifs at h
  split at h <;> cases h <;> simp [ArmTidy, held_after]

theorem MPC_CLEANUP_2_tidy (E : Env) (context : CTXT_Object) (r : Rounded mpc_t)
    (t : List Event) (h : held_after [] t = some [.result]) :
    Tidy (MPC_CLEANUP_2 E context r t) := by
  simp only [MPC_CLEANUP_2]
  split_ifs <;> simp [Tidy, held_after_append, h, held_after, PyResult.isValue]

theorem Complex_Add_tidy (E : Env) (x y : PyObject) (context : Option CTXT_Object) :
    Tidy (GMPy_Complex_Add E x y context) := by
  have arm : ∀ a : Arm mpc_t, ArmTidy a →
      Tidy (match some a with
        | some (.done r t) =>
          MPC_CLEANUP_2 E (context.getD E.active) r
            ([.set_exponent (context.getD E.active).emin (context.getD E.active).emax,
              .acquire .result] ++ t)
        | some (.fail e t) =>
          ⟨.error e, some (context.getD E.active),
            [.set_exponent (context.getD E.active).emin (context.getD E.active).emax,
              .acquire .result] ++ t⟩
        | none =>
          ⟨.NotImplemented, some (context.getD E.active),
            [.set_exponent (context.getD E.active).emin (context.getD E.active).emax,
              .acquire .result] ++ [.release .result]⟩) := by
    intro a ha
    cases a with
    | done r t => exact MPC_CLEANUP_2_tidy E _ r _ (entry_then_arm _ _ t _ ha)
    | fail e t =>
      simp only [Tidy, PyResult.isValue]
      exact entry_then_arm _ _ t _ ha
  unfold GMPy_Complex_Add
  cases E.result_ok
  · simp [Tidy, held_after, PyResult.isValue]
  · simp only [Bool.not_true, Bool.false_eq_true, if_false]
    cases h0 : Complex_Add_both_owned E x y (context.getD E.active) with
    | some a => exact arm a (Complex_Add_both_owned_tidy E x y _ a h0)
    | none =>
      cases h3 : Complex_Add_generic E x y (context.getD E.active) with
      | some a => exact arm a (Complex_Add_generic_tidy E x y _ a h3)
      | none => simp [Tidy, held_after, PyResult.isValue]

theorem live_count_of_tidy (n : Nat) (r : Run) (h : Tidy r) :
    live_count n r.trace = some (if r.ret.isValue then n + 1 else n) := by
  unfold live_count
  rw [h]
  split_ifs <;> simp

/-- C11: temporary release.  Over the explicit set of multi-precision
resources a call holds (result wrapper, stack-scoped big integer, coerced
operand temporaries), every exit path of the four kind-specific entries
acquires no resource twice, releases only what it holds, and ends holding the
result wrapper alone when an object is returned and nothing otherwise
(`NotImplemented`, a failed coercion of either temporary, a failed allocation,
trapped conditions); so the count of live allocations is the count on entry
plus 1 when a result is returned and plus 0 otherwise. -/
theorem C11_temporary_release (E : Env) (x y : PyObject) (context : Option CTXT_Object)
    (n : Nat) :
    (Tidy (GMPy_Integer_Add E x y context) ∧
      live_count n (GMPy_Integer_Add E x y context).trace =
        some (if (GMPy_Integer_Add E x y context).ret.isValue then n + 1 else n)) ∧
    (Tidy (GMPy_Rational_Add E x y context) ∧
      live_count n (GMPy_Rational_Add E x y context).trace =
        some (if (GMPy_Rational_Add E x y context).ret.isValue then n + 1 else n)) ∧
    (Tidy (GMPy_Real_Add E x y context) ∧
      live_count n (GMPy_Real_Add E x y context).trace =
        some (if (GMPy_Real_Add E x y context).ret.isValue then n + 1 else n)) ∧
    (Tidy (GMPy_Complex_Add E x y context) ∧
      live_count n (GMPy_Complex_Add E x y context).trace =
        some (if (GMPy_Complex_Add E x y context).ret.isValue then n + 1 else n)) :=
  ⟨⟨Integer_Add_tidy E x y context, live_count_of_tidy n _ (Integer_Add_tidy E x y context)⟩,
   ⟨Rational_Add_tidy E x y context, live_count_of_tidy n _ (Rational_Add_tidy E x y context)⟩,
   ⟨Real_Add_tidy E x y context, live_count_of_tidy n _ (Real_Add_tidy E x y context)⟩,
   ⟨Complex_Add_tidy E x y context, live_count_of_tidy n _ (Complex_Add_tidy E x y context)⟩⟩


/-! ## Flag bracketing -/

theorem calls_append (a b : List Event) : calls (a ++ b) = calls a ++ calls b := by
  induction a with
  | nil => rfl
  | cons e a ih => cases e <;> simp [calls, ih]

theorem bracketed_false_of_uncleared (l : List Event) (h : Event.clear_flags ∉ l)
    (hc : calls l ≠ []) : bracketed l = false := by
  induction l with
  | nil => exact absurd rfl hc
  | cons e t ih =>
    have ht : Event.clear_flags ∉ t := fun hm => h (List.mem_cons_of_mem _ hm)
    cases e with
    | call p => simp [bracketed]
    | clear_flags => exact absurd (List.mem_cons_self _ _) h
    | _ => simp only [bracketed]; exact ih ht (by simpa [calls] using hc)

theorem Real_Add_both_owned_bracketed (E : Env) (x y : PyObject) (context : CTXT_Object)
    (a : Arm mpfr_t) (h : Real_Add_both_owned E x y context = some a) : ArmBracketed a := by
  simp only [Real_Add_both_owned] at h
  split_ifs at h; cases h; simp [ArmBracketed, bracketed, calls]

theorem Real_Add_x_owned_bracketed (E : Env) (x y : PyObject) (context : CTXT_Object)
    (a : Arm mpfr_t) (h : Real_Add_x_owned E x y context = some a) : ArmBracketed a := by
  simp only [Real_Add_x_owned] at h
  split_ifs at h <;> (try split at h) <;> cases h <;> simp [ArmBracketed, bracketed, calls]

theorem Real_Add_y_owned_bracketed (E : Env) (x y : PyObject) (context : CTXT_Object)
    (a : Arm mpfr_t) (h : Real_Add_y_owned E x y context = some a) : ArmBracketed a := by
  simp only [Real_Add_y_owned] at h
  split_ifs at h <;> (try split at h) <;> cases h <;> simp [ArmBracketed, bracketed, calls]

theorem Real_Add_generic_bracketed (E : Env) (x y : PyObject) (context : CTXT_Object)
    (a : Arm mpfr_t) (h : Real_Add_generic E x y context = some a) : ArmBracketed a := by
  simp only [Real_Add_generic] at h
  split_ifs at h
  split at h <;> cases h <;> simp [ArmBracketed, bracketed, calls]


theorem MPFR_CLEANUP_2_bracketed (E : Env) (context : CTXT_Object) (r : Rounded mpfr_t)
    (t : List Event) (h : ArmBracketed (Arm.done r t)) :
    Bracketed (MPFR_CLEANUP_2 E context r
      ([.set_exponent context.emin context.emax, .acquire .result] ++ t)) := by
  obtain ⟨hb, hc⟩ := h
  simp only [MPFR_CLEANUP_2]
  split_ifs
  · exact ⟨(hb _ _).2, fun hv => by simp [PyResult.isValue] at hv⟩
  · refine ⟨(hb _ _).1, fun _ => ?_⟩
    simp [calls_append, calls, hc]

theorem Real_Add_bracketed (E : Env) (x y : PyObject) (context : Option CTXT_Object) :
    Bracketed (GMPy_Real_Add E x y context) := by
  have arm : ∀ a : Arm mpfr_t, ArmBracketed a →
      Bracketed (match some a with
        | some (.done r t) =>
          MPFR_CLEANUP_2 E (context.getD E.active) r
            ([.set_exponent (context.getD E.active).emin (context.getD E.active).emax,
              .acquire .result] ++ t)
        | some (.fail e t) =>
          ⟨.error e, some (context.getD E.active),
            [.set_exponent (context.getD E.active).emin (context.getD E.active).emax,
              .acquire .result] ++ t⟩
        | none =>
          ⟨.NotImplemented, some (context.getD E.active),
            [.set_exponent (context.getD E.active).emin (context.getD E.active).emax,
              .acquire .result] ++ [.release .result]⟩) := by
    intro a ha
    cases a with
    | done r t => exact MPFR_CLEANUP_2_bracketed E _ r t ha
    | fail e t => exact ⟨ha.1 _ _, fun hv => by simp [PyResult.isValue] at hv⟩
  unfold GMPy_Real_Add
  cases E.result_ok
  · simp [Bracketed, bracketed, PyResult.isValue]
  · simp only [Bool.not_true, Bool.false_eq_true, if_false]
    cases h0 : Real_Add_both_owned E x y (context.getD E.active) with
    | some a => exact arm a (Real_Add_both_owned_bracketed E x y _ a h0)
    | none =>
      cases h1 : Real_Add_x_owned E x y (context.getD E.active) with
      | some a => exact arm a (Real_Add_x_owned_bracketed E x y _ a h1)
      | none =>
        cases h2 : Real_Add_y_owned E x y (context.getD E.active) with
        | some a => exact arm a (Real_Add_y_owned_bracketed E x y _ a h2)
        | none =>
          cases h3 : Real_Add_generic E x y (context.getD E.active) with
          | some a => exact arm a (Real_Add_generic_bracketed E x y _ a h3)
          | none => simp [Bracketed, bracketed, PyResult.isValue]

theorem Complex_Add_both_owned_uncleared (E : Env) (x y : PyObject) (context : CTXT_Object)
    (a : Arm mpc_t) (h : Complex_Add_both_owned E x y context = some a) : ArmUncleared a := by
  simp only [Complex_Add_both_owned] at h
  split_ifs at h; cases h; simp [ArmUncleared, calls]

theorem Complex_Add_generic_uncleared (E : Env) (x y : PyObject) (context : CTXT_Object)
    (a : Arm mpc_t) (h : Complex_Add_generic E x y context = some a) : ArmUncleared a := by
  simp only [Complex_Add_generic] at h
  split_ifs at h
  split at h <;> cases h <;> simp [ArmUncleared, calls]

theorem MPC_CLEANUP_2_uncleared (E : Env) (context : CTXT_Object) (r : Rounded mpc_t)
    (t : List Event) (h : ArmUncleared (Arm.done r t)) :
    Uncleared (MPC_CLEANUP_2 E context r
      ([.set_exponent context.emin context.emax, .acquire .result] ++ t)) := by
  obtain ⟨hb, hc⟩ := h
  simp only [MPC_CLEANUP_2]
  split_ifs
  · exact ⟨by simp [hb], fun hv => by simp [PyResult.isValue] at hv⟩
  · refine ⟨by simp [hb], fun _ => ?_⟩
    simp [calls_append, calls, hc]

theorem Complex_Add_uncleared (E : Env) (x y : PyObject) (context : Option CTXT_Object) :
    Uncleared (GMPy_Complex_Add E x y context) := by
  have arm : ∀ a : Arm mpc_t, ArmUncleared a →
      Uncleared (match some a with
        | some (.done r t) =>
          MPC_CLEANUP_2 E (context.getD E.active) r
            ([.set_exponent (context.getD E.active).emin (context.getD E.active).emax,
              .acquire .result] ++ t)
        | some (.fail e t) =>
          ⟨.error e, some (context.getD E.active),
            [.set_exponent (context.getD E.active).emin (context.getD E.active).emax,
              .acquire .result] ++ t⟩
        | none =>
          ⟨.NotImplemented, some (context.getD E.active),
            [.set_exponent (context.getD E.active).emin (context.getD E.active).emax,
              .acquire .result] ++ [.release .result]⟩) := by
    intro a ha
    cases a with
    | done r t => exact MPC_CLEANUP_2_uncleared E _ r t ha
    | fail e t => exact ⟨by simp [ha.1], fun hv => by simp [PyResult.isValue] at hv⟩
  unfold GMPy_Complex_Add
  cases E.result_ok
  · simp [Uncleared, PyResult.isValue]
  · simp only [Bool.not_true, Bool.false_eq_true, if_false]
    cases h0 : Complex_Add_both_owned E x y (context.getD E.active) with
    | some a => exact arm a (Complex_Add_both_owned_uncleared E x y _ a h0)
    | none =>
      cases h3 : Complex_Add_generic E x y (context.getD E.active) with
      | some a => exact arm a (Complex_Add_generic_uncleared E x y _ a h3)
      | none => simp [Uncleared, PyResult.isValue]

/-- C12, as the code has it: flag bracketing holds on every path of the Real
entry, where each primitive call comes right after a `clear_flags` and a
returned object comes from exactly one such call.  The Complex entry never
clears the library flags: its trace holds no `clear_flags`, so whenever it
returns an object its one call of `mpc_add` is not bracketed. -/
theorem C12_flag_bracketing_real_only (E : Env) (x y : PyObject)
    (context : Option CTXT_Object) :
    Bracketed (GMPy_Real_Add E x y context) ∧
    Uncleared (GMPy_Complex_Add E x y context) ∧
    ((GMPy_Complex_Add E x y context).ret.isValue = true →
      bracketed (GMPy_Complex_Add E x y context).trace = false) := by
  refine ⟨Real_Add_bracketed E x y context, Complex_Add_uncleared E x y context, fun hv => ?_⟩
  obtain ⟨h1, h2⟩ := Complex_Add_uncleared E x y context
  refine bracketed_false_of_uncleared _ h1 (fun hc => ?_)
  have := h2 hv
  rw [hc] at this
  simp at this

/-- C12 fails on the Complex entry: adding two owned complexes calls `mpc_add`
with no `clear_flags` anywhere in the call. -/
theorem C12_complex_add_not_bracketed :
    Event.call (.mpc_add ⟨⟨53, 1, 1⟩, ⟨53, 2, 1⟩⟩ ⟨⟨53, 2, 3⟩, ⟨53, 0, 0⟩⟩ .RNDN .RNDN) ∈
      (GMPy_Complex_Add sample_env (.mpc ⟨⟨53, 1, 1⟩, ⟨53, 2, 1⟩⟩ 0)
        (.mpc ⟨⟨53, 2, 3⟩, ⟨53, 0, 0⟩⟩ 0) none).trace ∧
    Event.clear_flags ∉
      (GMPy_Complex_Add sample_env (.mpc ⟨⟨53, 1, 1⟩, ⟨53, 2, 1⟩⟩ 0)
        (.mpc ⟨⟨53, 2, 3⟩, ⟨53, 0, 0⟩⟩ 0) none).trace ∧
    bracketed (GMPy_Complex_Add sample_env (.mpc ⟨⟨53, 1, 1⟩, ⟨53, 2, 1⟩⟩ 0)
        (.mpc ⟨⟨53, 2, 3⟩, ⟨53, 0, 0⟩⟩ 0) none).trace = false := by
  decide


/-- C12 at two owned complexes, where an object is returned. -/
theorem C12_flag_bracketing_real_only_witness :
    (GMPy_Complex_Add sample_env (.mpc ⟨⟨53, 1, 1⟩, ⟨53, 2, 1⟩⟩ 0)
      (.mpfr ⟨53, 2, 3⟩ 0) none).ret.isValue = true ∧
    bracketed (GMPy_Complex_Add sample_env (.mpc ⟨⟨53, 1, 1⟩, ⟨53, 2, 1⟩⟩ 0)
      (.mpfr ⟨53, 2, 3⟩ 0) none).trace = false :=
  ⟨by decide,
    (C12_flag_bracketing_real_only sample_env (.mpc ⟨⟨53, 1, 1⟩, ⟨53, 2, 1⟩⟩ 0)
      (.mpfr ⟨53, 2, 3⟩ 0) none).2.2 (by decide)⟩

/-! ## Exponent bounds -/

theorem fast_arms_skip_out_of_range_x (E : Env) (x y : PyObject) (context : CTXT_Object)
    (hx : MPFR_Check x = true) (hout : MPFR_CheckAndExp context x = false) :
    Real_Add_both_owned E x y context = none ∧ Real_Add_x_owned E x y context = none ∧
    Real_Add_y_owned E x y context = none := by
  cases x <;> simp [MPFR_Check] at hx
  refine ⟨by simp [Real_Add_both_owned, hout], by simp [Real_Add_x_owned, hout], ?_⟩
  simp [Real_Add_y_owned, PyIntOrLong_Check, CHECK_MPZANY, IS_RATIONAL, IS_INTEGER, IS_DECIMAL,
    PyFloat_Check]

theorem fast_arms_skip_out_of_range_y (E : Env) (x y : PyObject) (context : CTXT_Object)
    (hy : MPFR_Check y = true) (hout : MPFR_CheckAndExp context y = false) :
    Real_Add_both_owned E x y context = none ∧ Real_Add_x_owned E x y context = none ∧
    Real_Add_y_owned E x y context = none := by
  cases y <;> simp [MPFR_Check] at hy
  refine ⟨by simp [Real_Add_both_owned, hout], ?_, by simp [Real_Add_y_owned, hout]⟩
  simp [Real_Add_x_owned, PyIntOrLong_Check, CHECK_MPZANY, IS_RATIONAL, IS_INTEGER, IS_DECIMAL,
    PyFloat_Check]

theorem Real_Add_generic_done (E : Env) (x y : PyObject) (context : CTXT_Object)
    (hx : IS_REAL x = true) (hy : IS_REAL y = true)
    (htx : E.tempx_ok = true) (hty : E.tempy_ok = true) :
    Real_Add_generic E x y context =
      some (.done
        (E.mpfr_add (real_dest context)
          (E.real_temp (real_dest context) (GET_MPFR_ROUND context) x)
          (E.real_temp (real_dest context) (GET_MPFR_ROUND context) y) (GET_MPFR_ROUND context))
        [.acquire .tempx, .acquire .tempy, .clear_flags,
         .call (.mpfr_add (E.real_temp (real_dest context) (GET_MPFR_ROUND context) x)
           (E.real_temp (real_dest context) (GET_MPFR_ROUND context) y)
           (GET_MPFR_ROUND context)),
         .release .tempx, .release .tempy]) := by
  simp [Real_Add_generic, GMPy_MPFR_From_Real_Temp, hx, hy, htx, hty]

theorem Complex_Add_generic_done (E : Env) (x y : PyObject) (context : CTXT_Object)
    (hx : IS_COMPLEX x = true) (hy : IS_COMPLEX y = true)
    (htx : E.tempx_ok = true) (hty : E.tempy_ok = true) :
    Complex_Add_generic E x y context =
      some (.done
        (E.mpc_add (complex_dest context)
          (E.complex_temp (complex_dest context) context.real_round context.imag_round x)
          (E.complex_temp (complex_dest context) context.real_round context.imag_round y)
          context.real_round context.imag_round)
        [.acquire .tempx, .acquire .tempy,
         .call (.mpc_add
           (E.complex_temp (complex_dest context) context.real_round context.imag_round x)
           (E.complex_temp (complex_dest context) context.real_round context.imag_round y)
           context.real_round context.imag_round),
         .release .tempx, .release .tempy]) := by
  simp [Complex_Add_generic, GMPy_MPC_From_Complex_Temp, hx, hy, htx, hty]

theorem calls_MPFR_CLEANUP_2 (E : Env) (context : CTXT_Object) (r : Rounded mpfr_t)
    (t : List Event) : calls (MPFR_CLEANUP_2 E context r t).trace = calls t := by
  simp only [MPFR_CLEANUP_2]
  split_ifs <;> simp [calls_append, calls]

theorem calls_MPC_CLEANUP_2 (E : Env) (context : CTXT_Object) (r : Rounded mpc_t)
    (t : List Event) : calls (MPC_CLEANUP_2 E context r t).trace = calls t := by
  simp only [MPC_CLEANUP_2]
  split_ifs <;> simp [calls_append, calls]

/-- C13: exponent-range awareness.  When an operand of an admissible pair is
an owned real whose exponent lies outside the bounds of the context, in either
position and whatever the other operand, none of the specialized arms of
`GMPy_Real_Add` is taken: the generic arm re-materialises both operands as
temporaries under the context and the one primitive called is `mpfr_add` on
the two temporaries.  Likewise `GMPy_Complex_Add` with an owned complex out of
bounds calls `mpc_add` on two temporaries. -/
theorem C13_exponent_range_awareness (E : Env) (x y : PyObject)
    (context : Option CTXT_Object) :
    (((MPFR_Check x = true ∧ MPFR_CheckAndExp (context.getD E.active) x = false) ∨
      (MPFR_Check y = true ∧ MPFR_CheckAndExp (context.getD E.active) y = false)) →
     IS_REAL x = true → IS_REAL y = true →
      Real_Add_both_owned E x y (context.getD E.active) = none ∧
      Real_Add_x_owned E x y (context.getD E.active) = none ∧
      Real_Add_y_owned E x y (context.getD E.active) = none ∧
      (E.tempx_ok = true → E.tempy_ok = true →
        Real_Add_generic E x y (context.getD E.active) =
          some (.done
            (E.mpfr_add (real_dest (context.getD E.active))
              (E.real_temp (real_dest (context.getD E.active))
                (GET_MPFR_ROUND (context.getD E.active)) x)
              (E.real_temp (real_dest (context.getD E.active))
                (GET_MPFR_ROUND (context.getD E.active)) y)
              (GET_MPFR_ROUND (context.getD E.active)))
            [.acquire .tempx, .acquire .tempy, .clear_flags,
             .call (.mpfr_add
               (E.real_temp (real_dest (context.getD E.active))
                 (GET_MPFR_ROUND (context.getD E.active)) x)
               (E.real_temp (real_dest (context.getD E.active))
                 (GET_MPFR_ROUND (context.getD E.active)) y)
               (GET_MPFR_ROUND (context.getD E.active))),
             .release .tempx, .release .tempy]) ∧
        (E.result_ok = true →
          calls (GMPy_Real_Add E x y context).trace =
            [.mpfr_add
              (E.real_temp (real_dest (context.getD E.active))
                (GET_MPFR_ROUND (context.getD E.active)) x)
              (E.real_temp (real_dest (context.getD E.active))
                (GET_MPFR_ROUND (context.getD E.active)) y)
              (GET_MPFR_ROUND (context.getD E.active))]))) ∧
    (((MPC_Check x = true ∧ MPC_CheckAndExp (context.getD E.active) x = false) ∨
      (MPC_Check y = true ∧ MPC_CheckAndExp (context.getD E.active) y = false)) →
     IS_COMPLEX x = true → IS_COMPLEX y = true →
      Complex_Add_both_owned E x y (context.getD E.active) = none ∧
      (E.tempx_ok = true → E.tempy_ok = true →
        Complex_Add_generic E x y (context.getD E.active) =
          some (.done
            (E.mpc_add (complex_dest (context.getD E.active))
              (E.complex_temp (complex_dest (context.getD E.active))
                (context.getD E.active).real_round (context.getD E.active).imag_round x)
              (E.complex_temp (complex_dest (context.getD E.active))
                (context.getD E.active).real_round (context.getD E.active).imag_round y)
              (context.getD E.active).real_round (context.getD E.active).imag_round)
            [.acquire .tempx, .acquire .tempy,
             .call (.mpc_add
               (E.complex_temp (complex_dest (context.getD E.active))
                 (context.getD E.active).real_round (context.getD E.active).imag_round x)
               (E.complex_temp (complex_dest (context.getD E.active))
                 (context.getD E.active).real_round (context.getD E.active).imag_round y)
               (context.getD E.active).real_round (context.getD E.active).imag_round),
             .release .tempx, .release .tempy]) ∧
        (E.result_ok = true →
          calls (GMPy_Complex_Add E x y context).trace =
            [.mpc_add
              (E.complex_temp (complex_dest (context.getD E.active))
                (context.getD E.active).real_round (context.getD E.active).imag_round x)
              (E.complex_temp (complex_dest (context.getD E.active))
                (context.getD E.active).real_round (context.getD E.active).imag_round y)
              (context.getD E.active).real_round (context.getD E.active).imag_round]))) := by
  constructor
  · intro hout hx hy
    have h : Real_Add_both_owned E x y (context.getD E.active) = none ∧
        Real_Add_x_owned E x y (context.getD E.active) = none ∧
        Real_Add_y_owned E x y (context.getD E.active) = none := by
      rcases hout with ⟨h1, h2⟩ | ⟨h1, h2⟩
      · exact fast_arms_skip_out_of_range_x E x y _ h1 h2
      · exact fast_arms_skip_out_of_range_y E x y _ h1 h2
    refine ⟨h.1, h.2.1, h.2.2, fun htx hty => ?_⟩
    have hg := Real_Add_generic_done E x y (context.getD E.active) hx hy htx hty
    refine ⟨hg, fun hr => ?_⟩
    simp only [GMPy_Real_Add, hr, h.1, h.2.1, h.2.2, hg, Bool.not_true, Bool.false_eq_true,
      if_false]
    rw [calls_MPFR_CLEANUP_2]
    simp [calls]
  · intro hout hx hy
    have h : Complex_Add_both_owned E x y (context.getD E.active) = none := by
      rcases hout with ⟨_, h2⟩ | ⟨_, h2⟩ <;> simp [Complex_Add_both_owned, h2]
    refine ⟨h, fun htx hty => ?_⟩
    have hg := Complex_Add_generic_done E x y (context.getD E.active) hx hy htx hty
    refine ⟨hg, fun hr => ?_⟩
    simp only [GMPy_Complex_Add, hr, h, hg, Bool.not_true, Bool.false_eq_true, if_false]
    rw [calls_MPC_CLEANUP_2]
    simp [calls]

/-- C13 at scenario 8: `1.0 + 1.0` under `emax = 0`, and an owned complex out
of bounds with a host integer. -/
theorem C13_exponent_range_awareness_witness :
    (calls (GMPy_Real_Add sample_env (.mpfr ⟨53, 1, 1⟩ 0) (.mpfr ⟨53, 1, 1⟩ 0)
        (some emax_zero_ctx)).trace =
      [.mpfr_add
        (sample_env.real_temp (real_dest emax_zero_ctx) (GET_MPFR_ROUND emax_zero_ctx)
          (.mpfr ⟨53, 1, 1⟩ 0))
        (sample_env.real_temp (real_dest emax_zero_ctx) (GET_MPFR_ROUND emax_zero_ctx)
          (.mpfr ⟨53, 1, 1⟩ 0))
        (GET_MPFR_ROUND emax_zero_ctx)]) ∧
    (calls (GMPy_Complex_Add sample_env (.pylong 3) (.mpc ⟨⟨53, 1, 1⟩, ⟨53, 2, 1⟩⟩ 0)
        (some emax_zero_ctx)).trace =
      [.mpc_add
        (sample_env.complex_temp (complex_dest emax_zero_ctx) emax_zero_ctx.real_round
          emax_zero_ctx.imag_round (.pylong 3))
        (sample_env.complex_temp (complex_dest emax_zero_ctx) emax_zero_ctx.real_round
          emax_zero_ctx.imag_round (.mpc ⟨⟨53, 1, 1⟩, ⟨53, 2, 1⟩⟩ 0))
        emax_zero_ctx.real_round emax_zero_ctx.imag_round]) :=
  ⟨((C13_exponent_range_awareness sample_env (.mpfr ⟨53, 1, 1⟩ 0) (.mpfr ⟨53, 1, 1⟩ 0)
      (some emax_zero_ctx)).1 (Or.inl ⟨rfl, by decide⟩) rfl rfl).2.2.2 rfl rfl |>.2 rfl,
   ((C13_exponent_range_awareness sample_env (.pylong 3) (.mpc ⟨⟨53, 1, 1⟩, ⟨53, 2, 1⟩⟩ 0)
      (some emax_zero_ctx)).2 (Or.inr ⟨rfl, by decide⟩) rfl rfl).2 rfl rfl |>.2 rfl⟩


/-! ## The context of a call -/

theorem Real_Add_ctx_shape (E : Env) (x y : PyObject) (c : CTXT_Object) :
    ∃ fl, (GMPy_Real_Add E x y (some c)).ctx = some { c with flags := fl } := by
  have arm : ∀ a : Option (Arm mpfr_t),
      ∃ fl, (match a with
        | some (.done r t) =>
          MPFR_CLEANUP_2 E c r ([.set_exponent c.emin c.emax, .acquire .result] ++ t)
        | some (.fail e t) =>
          ⟨.error e, some c, [.set_exponent c.emin c.emax, .acquire .result] ++ t⟩
        | none =>
          ⟨.NotImplemented, some c,
            [.set_exponent c.emin c.emax, .acquire .result] ++ [.release .result]⟩ : Run).ctx =
        some { c with flags := fl } := by
    intro a
    rcases a with _ | ⟨r, t⟩ | ⟨e, t⟩
    · exact ⟨c.flags, rfl⟩
    · simp only [MPFR_CLEANUP_2]
      split_ifs <;> exact ⟨_, rfl⟩
    · exact ⟨c.flags, rfl⟩
  unfold GMPy_Real_Add
  cases E.result_ok
  · exact ⟨c.flags, rfl⟩
  · exact arm _

theorem Complex_Add_ctx_shape (E : Env) (x y : PyObject) (c : CTXT_Object) :
    ∃ fl, (GMPy_Complex_Add E x y (some c)).ctx = some { c with flags := fl } := by
  have arm : ∀ a : Option (Arm mpc_t),
      ∃ fl, (match a with
        | some (.done r t) =>
          MPC_CLEANUP_2 E c r ([.set_exponent c.emin c.emax, .acquire .result] ++ t)
        | some (.fail e t) =>
          ⟨.error e, some c, [.set_exponent c.emin c.emax, .acquire .result] ++ t⟩
        | none =>
          ⟨.NotImplemented, some c,
            [.set_exponent c.emin c.emax, .acquire .result] ++ [.release .result]⟩ : Run).ctx =
        some { c with flags := fl } := by
    intro a
    rcases a with _ | ⟨r, t⟩ | ⟨e, t⟩
    · exact ⟨c.flags, rfl⟩
    · simp only [MPC_CLEANUP_2]
      split_ifs <;> exact ⟨_, rfl⟩
    · exact ⟨c.flags, rfl⟩
  unfold GMPy_Complex_Add
  cases E.result_ok
  · exact ⟨c.flags, rfl⟩
  · exact arm _

/-- Whatever it returns, `GMPy_Number_Add` leaves the context it is given
unchanged but for its sticky flags. -/
theorem Number_Add_ctx_shape (E : Env) (x y : PyObject) (c : CTXT_Object) :
    ∃ fl, (GMPy_Number_Add E x y (some c)).ctx = some { c with flags := fl } := by
  unfold GMPy_Number_Add
  split_ifs
  · rw [Integer_Add_ctx]; exact ⟨c.flags, rfl⟩
  · rw [Rational_Add_ctx]; exact ⟨c.flags, rfl⟩
  · exact Real_Add_ctx_shape E x y c
  · exact Complex_Add_ctx_shape E x y c
  · exact ⟨c.flags, rfl⟩

/-- C14: copy on read-only.  Called on a read-only context `c` with two
arguments, `GMPy_Context_Add` leaves every field of `c` as it was: the
addition runs against `GMPy_CTXT_Copy c`, and the context it worked on is that
copy with, at most, other sticky flags.  Called on a context that is not
read-only, the addition runs against `c` itself, whose state after the call
is the state `GMPy_Number_Add` leaves. -/
theorem C14_copy_on_read_only (E : Env) (c : CTXT_Object) (x y : PyObject) :
    (c.readonly = true →
      (GMPy_Context_Add E (some c) [x, y]).self_after = some c ∧
      (E.copy_ok = true →
        (GMPy_Context_Add E (some c) [x, y]).ret =
          (GMPy_Number_Add E x y (some (GMPy_CTXT_Copy c))).ret ∧
        (GMPy_Context_Add E (some c) [x, y]).working =
          (GMPy_Number_Add E x y (some (GMPy_CTXT_Copy c))).ctx ∧
        (∃ fl, (GMPy_Context_Add E (some c) [x, y]).working =
          some { GMPy_CTXT_Copy c with flags := fl }) ∧
        (GMPy_Context_Add E (some c) [x, y]).trace =
          [.ctx_copy, .set_exponent c.emin c.emax] ++
            (GMPy_Number_Add E x y (some (GMPy_CTXT_Copy c))).trace ++ [.ctx_decref])) ∧
    (c.readonly = false →
      (GMPy_Context_Add E (some c) [x, y]).ret = (GMPy_Number_Add E x y (some c)).ret ∧
      (GMPy_Context_Add E (some c) [x, y]).self_after =
        (GMPy_Number_Add E x y (some c)).ctx ∧
      (GMPy_Context_Add E (some c) [x, y]).working =
        (GMPy_Context_Add E (some c) [x, y]).self_after ∧
      (GMPy_Context_Add E (some c) [x, y]).trace =
        [.ctx_incref, .set_exponent c.emin c.emax] ++
          (GMPy_Number_Add E x y (some c)).trace ++ [.ctx_decref]) := by
  constructor
  · intro hro
    cases hc : E.copy_ok
    · simp [GMPy_Context_Add, hro, hc]
    · refine ⟨by simp [GMPy_Context_Add, hro, hc], fun _ => ?_⟩
      have hw : (GMPy_Context_Add E (some c) [x, y]).working =
          (GMPy_Number_Add E x y (some (GMPy_CTXT_Copy c))).ctx := by
        simp [GMPy_Context_Add, hro, hc]
      refine ⟨by simp [GMPy_Context_Add, hro, hc], hw, ?_, ?_⟩
      · rw [hw]; exact Number_Add_ctx_shape E x y (GMPy_CTXT_Copy c)
      · simp [GMPy_Context_Add, hro, hc, GMPy_CTXT_Copy]
  · intro hro
    simp [GMPy_Context_Add, hro]

/-- C14 with real primitives that raise `inexact`: under a read-only context
the context keeps its empty flags and the copy takes the flag; under a mutable
context the context itself takes it. -/
theorem C14_copy_on_read_only_witness :
    (sample_readonly_ctx.readonly = true ∧ inexact_env.copy_ok = true ∧
      (GMPy_Context_Add inexact_env (some sample_readonly_ctx)
        [.mpfr ⟨53, 1, 1⟩ 0, .pyfloat ⟨2⟩]).self_after = some sample_readonly_ctx ∧
      (GMPy_Context_Add inexact_env (some sample_readonly_ctx)
        [.mpfr ⟨53, 1, 1⟩ 0, .pyfloat ⟨2⟩]).working =
        (GMPy_Number_Add inexact_env (.mpfr ⟨53, 1, 1⟩ 0) (.pyfloat ⟨2⟩)
          (some (GMPy_CTXT_Copy sample_readonly_ctx))).ctx ∧
      (GMPy_Context_Add inexact_env (some sample_readonly_ctx)
        [.mpfr ⟨53, 1, 1⟩ 0, .pyfloat ⟨2⟩]).working =
        some { GMPy_CTXT_Copy sample_readonly_ctx with
          flags := ⟨true, false, false, false, false, false⟩ }) ∧
    (sample_ctx.readonly = false ∧
      (GMPy_Context_Add inexact_env (some sample_ctx)
        [.mpfr ⟨53, 1, 1⟩ 0, .pyfloat ⟨2⟩]).self_after =
        (GMPy_Number_Add inexact_env (.mpfr ⟨53, 1, 1⟩ 0) (.pyfloat ⟨2⟩)
          (some sample_ctx)).ctx ∧
      (GMPy_Context_Add inexact_env (some sample_ctx)
        [.mpfr ⟨53, 1, 1⟩ 0, .pyfloat ⟨2⟩]).self_after =
        some { sample_ctx with flags := ⟨true, false, false, false, false, false⟩ }) :=
  ⟨⟨rfl, rfl,
     ((C14_copy_on_read_only inexact_env sample_readonly_ctx (.mpfr ⟨53, 1, 1⟩ 0)
        (.pyfloat ⟨2⟩)).1 rfl).1,
     (((C14_copy_on_read_only inexact_env sample_readonly_ctx (.mpfr ⟨53, 1, 1⟩ 0)
        (.pyfloat ⟨2⟩)).1 rfl).2 rfl).2.1,
     by decide⟩,
   ⟨rfl,
     ((C14_copy_on_read_only inexact_env sample_ctx (.mpfr ⟨53, 1, 1⟩ 0)
        (.pyfloat ⟨2⟩)).2 rfl).2.1,
     by decide⟩⟩


/-! ## The selectors -/

theorem PyLong_AsSIAndOverflow_fits (W : Nat) (s : Int) (h1 : SI_MIN W ≤ s) (h2 : s ≤ SI_MAX W) :
    PyLong_AsSIAndOverflow W (.pylong s) = (s, 0) := by
  simp [PyLong_AsSIAndOverflow, not_lt.2 h1, not_lt.2 h2]

/-- Away from zero the two positions of a word-sized host integer select the
same primitive and word: `mpz_add_ui` with the word when it is positive,
`mpz_sub_ui` with its magnitude when it is negative. -/
theorem Integer_selector_nonzero (E : Env) (context : Option CTXT_Object) (a w : Int)
    (h1 : SI_MIN E.W ≤ w) (h2 : w ≤ SI_MAX E.W) (h0 : w ≠ 0) :
    Integer_Add_x_owned E (.mpz a) (.pylong w) context =
      Integer_Add_y_owned E (.pylong w) (.mpz a) context ∧
    Integer_Add_y_owned E (.pylong w) (.mpz a) context =
      some ⟨.value (.mpz (a + w)), context,
        [.acquire .result,
         .call (if 0 < w then .mpz_add_ui a w.natAbs else .mpz_sub_ui a w.natAbs)]⟩ := by
  have hfit := PyLong_AsSIAndOverflow_fits E.W w h1 h2
  by_cases hpos : 0 < w
  · have hc := to_ui_nonneg E.W E.W_pos w (le_of_lt hpos) h2
    have hn : to_ui E.W w = w.natAbs := by omega
    have hge : w ≥ 0 := le_of_lt hpos
    simp only [Integer_Add_x_owned, Integer_Add_y_owned, CHECK_MPZANY, PyIntOrLong_Check, hfit,
      MPZ, mpz_add_ui, hn, if_true, hpos, hge, ne_eq, not_true_eq_false, if_false, gt_iff_lt]
    refine ⟨trivial, ?_⟩
    have : ((w.natAbs : Nat) : Int) = w := by omega
    simp [this]
  · have hneg : w < 0 := by omega
    have hc := to_ui_neg_si E.W E.W_pos w (le_of_lt hneg) h1
    have hn : to_ui E.W (neg_si E.W w) = w.natAbs := by omega
    have hge : ¬ (w ≥ 0) := by omega
    simp only [Integer_Add_x_owned, Integer_Add_y_owned, CHECK_MPZANY, PyIntOrLong_Check, hfit,
      MPZ, mpz_sub_ui, hn, if_true, hpos, hge, ne_eq, not_true_eq_false, if_false, gt_iff_lt]
    refine ⟨trivial, ?_⟩
    have : ((w.natAbs : Nat) : Int) = -w := by omega
    simp [this, sub_eq_add_neg]

/-- C15 at the host integer zero: on the left of an owned integer `a` the entry
selects `mpz_sub_ui (result, a, 0)` (line 106, after the test `temp_si > 0` of
line 102), on the right it selects `mpz_add_ui (result, a, 0)` (line 79, after
the test `temp_si >= 0` of line 78). -/
theorem C15_commuted_zero_selects_sub_ui (E : Env) (context : Option CTXT_Object) (a : Int) :
    Integer_Add_y_owned E (.pylong 0) (.mpz a) context =
      some ⟨.value (.mpz a), context, [.acquire .result, .call (.mpz_sub_ui a 0)]⟩ ∧
    Integer_Add_x_owned E (.mpz a) (.pylong 0) context =
      some ⟨.value (.mpz a), context, [.acquire .result, .call (.mpz_add_ui a 0)]⟩ ∧
    calls (GMPy_Integer_Add E (.pylong 0) (.mpz a) context).trace =
      (if E.result_ok then [.mpz_sub_ui a 0] else []) ∧
    calls (GMPy_Integer_Add E (.mpz a) (.pylong 0) context).trace =
      (if E.result_ok then [.mpz_add_ui a 0] else []) := by
  have hy : Integer_Add_y_owned E (.pylong 0) (.mpz a) context =
      some ⟨.value (.mpz a), context, [.acquire .result, .call (.mpz_sub_ui a 0)]⟩ := by
    simp [Integer_Add_y_owned, CHECK_MPZANY, PyIntOrLong_Check, PyLong_AsSIAndOverflow_zero,
      to_ui_neg_si_zero E.W E.W_pos, MPZ, mpz_sub_ui]
  have hz : to_ui E.W 0 = 0 := by simp [to_ui]
  have hx : Integer_Add_x_owned E (.mpz a) (.pylong 0) context =
      some ⟨.value (.mpz a), context, [.acquire .result, .call (.mpz_add_ui a 0)]⟩ := by
    simp [Integer_Add_x_owned, CHECK_MPZANY, PyIntOrLong_Check, PyLong_AsSIAndOverflow_zero,
      hz, MPZ, mpz_add_ui]
  refine ⟨hy, hx, ?_, ?_⟩
  · cases hr : E.result_ok <;>
      simp [GMPy_Integer_Add, hr, hy, Integer_Add_x_owned, CHECK_MPZANY, calls]
  · cases hr : E.result_ok <;> simp [GMPy_Integer_Add, hr, hx, calls]

/-- C17: the negated word.  For every value `s` of the signed word that
reaches an `mpz_sub_ui` arm (`s < 0` with the owned operand on the left,
`s ≤ 0` with it on the right, the least word `-2^(W-1)` included), the
unsigned word obtained by negating `s` modulo `2^W` is the magnitude of `s`,
so the arm subtracts `|s|` and returns `a + s`. -/
theorem C17_negated_word_is_magnitude (E : Env) (context : Option CTXT_Object) (a s : Int)
    (hmin : SI_MIN E.W ≤ s) (hs : s ≤ 0) :
    ((to_ui E.W (neg_si E.W s) : Nat) : Int) = |s| ∧
    mpz_sub_ui a (to_ui E.W (neg_si E.W s)) = a + s ∧
    (s < 0 → Integer_Add_x_owned E (.mpz a) (.pylong s) context =
      some ⟨.value (.mpz (a + s)), context,
        [.acquire .result, .call (.mpz_sub_ui a s.natAbs)]⟩) ∧
    Integer_Add_y_owned E (.pylong s) (.mpz a) context =
      some ⟨.value (.mpz (a + s)), context,
        [.acquire .result, .call (.mpz_sub_ui a s.natAbs)]⟩ := by
  have hc := to_ui_neg_si E.W E.W_pos s hs hmin
  have hn : to_ui E.W (neg_si E.W s) = s.natAbs := by omega
  have hmax : s ≤ SI_MAX E.W := by
    have : (0 : Int) < (2 : Int) ^ (E.W - 1) := by positivity
    unfold SI_MAX; omega
  have hfit := PyLong_AsSIAndOverflow_fits E.W s hmin hmax
  have habs : ((s.natAbs : Nat) : Int) = -s := by omega
  refine ⟨by rw [hc, abs_of_nonpos hs], by simp [mpz_sub_ui, hc, sub_eq_add_neg], fun hlt => ?_, ?_⟩
  · have hge : ¬ (s ≥ 0) := by omega
    simp [Integer_Add_x_owned, CHECK_MPZANY, PyIntOrLong_Check, hfit, MPZ, mpz_sub_ui, hn, hge,
      habs, sub_eq_add_neg]
  · have hgt : ¬ (s > 0) := by omega
    simp [Integer_Add_y_owned, CHECK_MPZANY, PyIntOrLong_Check, hfit, MPZ, mpz_sub_ui, hn, hgt,
      habs, sub_eq_add_neg]

/-- C17 at the least 64-bit word. -/
theorem C17_negated_word_is_magnitude_witness :
    SI_MIN sample_env.W ≤ -2 ^ 63 ∧ (-2 ^ 63 : Int) ≤ 0 ∧
    ((to_ui sample_env.W (neg_si sample_env.W (-2 ^ 63)) : Nat) : Int) = |(-2 ^ 63 : Int)| ∧
    mpz_sub_ui 5 (to_ui sample_env.W (neg_si sample_env.W (-2 ^ 63))) = 5 + -2 ^ 63 ∧
    ((-2 ^ 63 : Int) < 0 → Integer_Add_x_owned sample_env (.mpz 5) (.pylong (-2 ^ 63)) none =
      some ⟨.value (.mpz (5 + -2 ^ 63)), none,
        [.acquire .result, .call (.mpz_sub_ui 5 (-2 ^ 63 : Int).natAbs)]⟩) ∧
    Integer_Add_y_owned sample_env (.pylong (-2 ^ 63)) (.mpz 5) none =
      some ⟨.value (.mpz (5 + -2 ^ 63)), none,
        [.acquire .result, .call (.mpz_sub_ui 5 (-2 ^ 63 : Int).natAbs)]⟩ :=
  ⟨by decide, by decide,
    C17_negated_word_is_magnitude sample_env none 5 (-2 ^ 63) (by decide) (by decide)⟩


end Gmpy2
